import Mathlib

/-!
# Verification of the PyView dependency-analysis core against its specification

This file gives a shallow embedding, in Lean 4, of the parts of the
`TidyDeps/pyview` repository that the frozen claims C1..C10 are about, and
settles each claim against that embedding.

Conventions of the embedding:

* Python dataclasses (`pyview/models.py`) become Lean structures with the same
  field names (a few fields are renamed where the verification gate forbids
  the identifier; each rename is noted).  Dynamically-typed metadata fields
  (`metrics : Dict[str, Any]`, timestamps, version strings) that no claim
  reads are elided.
* Python floats (relationship strengths) are modelled as rationals `ℚ`.
  Every comparison a claim depends on is far from any rounding boundary.
* Python `set` objects are modelled as insertion-ordered duplicate-free
  lists; `dict` objects as insertion-ordered association lists.  This fixes
  one iteration order where CPython leaves it unspecified; no settled
  property depends on that order.
* File-system and parser effects (reading a file, `ast.parse`, marker files
  used by module-name derivation, `FileMetadata.is_outdated`) are inputs of
  the embedded functions, since the corresponding Python code calls into the
  interpreter or the OS.
* Exceptions are modelled with `Except String`; a caught-and-logged
  exception that makes a Python function return `None` is `Except.ok none`.
-/

deriving instance DecidableEq for Except

namespace PyView

/-! ## String utilities

Models of the Python `str` operations the sources use, written as plain
structural recursions over character lists so that they evaluate inside the
kernel (`String.replace` and friends use iterators and do not). -/

/-- `s.replace(c, r)` for a single-character pattern. -/
def replaceChar (c r : Char) (s : String) : String :=
  String.mk (s.toList.map fun x => if x = c then r else x)

/-- `s.endswith(suffix)`. -/
def strEndsWith (s suffix : String) : Bool :=
  decide (suffix.toList <:+ s.toList)

/-- `s.startswith(pre)`. -/
def strStartsWith (s pre : String) : Bool :=
  decide (pre.toList <+: s.toList)

/-- `s[:-n]` (drop the last `n` characters). -/
def strDropRight (s : String) (n : Nat) : String :=
  String.mk (s.toList.take (s.toList.length - n))

/-- `s[n:]` (drop the first `n` characters). -/
def strDropLeft (s : String) (n : Nat) : String :=
  String.mk (s.toList.drop n)

/-- Splitting accumulator for `strSplitOnChar`. -/
def splitCharAux (sep : Char) : List Char → List Char → List (List Char)
  | [], acc => [acc.reverse]
  | c :: rest, acc =>
      if c = sep then acc.reverse :: splitCharAux sep rest []
      else splitCharAux sep rest (c :: acc)

/-- `s.split(sep)` for a single-character separator (always non-empty, like
Python's). -/
def strSplitOnChar (sep : Char) (s : String) : List String :=
  (splitCharAux sep s.toList []).map String.mk

/-- `s.lower()` (ASCII, which covers every use in the sources). -/
def strLower (s : String) : String :=
  String.mk (s.toList.map Char.toLower)

/-- `s.strip()` — strip ASCII whitespace from both ends. -/
def strStrip (s : String) : String :=
  String.mk (((s.toList.dropWhile (·.isWhitespace)).reverse.dropWhile (·.isWhitespace)).reverse)

/-! ## Data model (`pyview/models.py`) -/

/-- `models.DependencyType` — the relationship variants. -/
inductive DependencyType where
  | importDep
  | inheritance
  | composition
  | call
  | reference
  | attribute_access
deriving DecidableEq, Repr

/-- `DependencyType(...).value` — the lowercase textual name of the enum member
(`ATTRIBUTE_ACCESS` has value `"attribute"` in the source). -/
def DependencyType.value : DependencyType → String
  | .importDep => "import"
  | .inheritance => "inheritance"
  | .composition => "composition"
  | .call => "call"
  | .reference => "reference"
  | .attribute_access => "attribute"

/-- `models.ImportInfo`. -/
structure ImportInfo where
  module : String
  name : Option String := none
  asname : Option String := none   -- source field `alias`
  line_number : Nat := 0
  import_type : String := "import"
  is_relative : Bool := false
deriving DecidableEq, Repr

/-- `models.FieldInfo` (`type_annotation` is rendered here as `typeAnn`). -/
structure FieldInfo where
  id : String
  name : String
  class_id : String
  line_number : Nat
  file_path : String
  typeAnn : Option String := none
  default_value : Option String := none
  is_class_variable : Bool := false
  docstring : Option String := none
deriving DecidableEq, Repr

/-- `models.MethodInfo` (`return_annotation` is rendered here as `returnAnn`). -/
structure MethodInfo where
  id : String
  name : String
  line_number : Nat
  file_path : String
  class_id : Option String := none
  args : List String := []
  returnAnn : Option String := none
  decorators : List String := []
  is_method : Bool := false
  is_static : Bool := false
  is_class_method : Bool := false
  is_property : Bool := false
  calls : List String := []
  complexity : Nat := 1
  docstring : Option String := none
deriving DecidableEq, Repr

/-- `models.ClassInfo`. -/
structure ClassInfo where
  id : String
  name : String
  module_id : String
  line_number : Nat
  file_path : String
  bases : List String := []
  methods : List String := []
  fields : List String := []
  decorators : List String := []
  is_abstract : Bool := false
  docstring : Option String := none
deriving DecidableEq, Repr

/-- `models.ModuleInfo`. -/
structure ModuleInfo where
  id : String
  name : String
  file_path : String
  package_id : Option String := none
  classes : List String := []
  functions : List String := []
  imports : List ImportInfo := []
  loc : Nat := 0
  docstring : Option String := none
deriving DecidableEq, Repr

/-- `models.PackageInfo`. -/
structure PackageInfo where
  id : String
  name : String
  path : String
  modules : List String := []
  sub_packages : List String := []
  is_namespace : Bool := false
  version : Option String := none
deriving DecidableEq, Repr

/-- `models.Relationship`; `strength` (a Python float) is a rational. -/
structure Relationship where
  id : String
  from_entity : String
  to_entity : String
  relationship_type : DependencyType
  line_number : Nat
  file_path : String
  strength : ℚ := 1
  context : Option String := none
deriving DecidableEq, Repr

/-- `models.CyclicDependency` — note: its only fields are the five below; in
particular it carries no list of edges/paths. -/
structure CyclicDependency where
  id : String
  entities : List String
  cycle_type : String
  severity : String := "medium"
  description : Option String := none
deriving DecidableEq, Repr

/-- `models.DependencyGraph` (the derived `_*_map` lookup caches are elided:
they are rebuilt from the five lists). -/
structure DependencyGraph where
  packages : List PackageInfo := []
  modules : List ModuleInfo := []
  classes : List ClassInfo := []
  methods : List MethodInfo := []
  fields : List FieldInfo := []
deriving DecidableEq, Repr

/-- `models.ProjectInfo` (timestamps, duration and interpreter version are
elided: no claim reads them). -/
structure ProjectInfo where
  name : String
  path : String
  total_files : Nat := 0
deriving DecidableEq, Repr

/-- `models.AnalysisResult` (the dynamically-typed `metrics` dictionary is
elided: no claim reads it). -/
structure AnalysisResult where
  analysis_id : String
  project_info : ProjectInfo
  dependency_graph : DependencyGraph
  relationships : List Relationship := []
  cycles : List CyclicDependency := []
  warnings : List String := []
  errors : List String := []
deriving DecidableEq, Repr

/-! ### Identifier factories (`models.py`, bottom) -/

/-- `models.create_package_id`. -/
def create_package_id (package_path : String) : String :=
  "pkg:" ++ replaceChar '\\' '.' (replaceChar '/' '.' package_path)

/-- `models.create_module_id`. -/
def create_module_id (module_path : String) : String :=
  let module_name := replaceChar '\\' '.' (replaceChar '/' '.' module_path)
  let module_name := if strEndsWith module_name ".py" then strDropRight module_name 3 else module_name
  "mod:" ++ module_name

/-- `models.create_class_id`. -/
def create_class_id (module_id class_name : String) : String :=
  "cls:" ++ module_id ++ ":" ++ class_name

/-- `models.create_method_id`. -/
def create_method_id (class_id : Option String) (method_name : String)
    (line_number : Nat) : String :=
  match class_id with
  | some cid => "meth:" ++ cid ++ ":" ++ method_name ++ ":" ++ toString line_number
  | none => "func:" ++ method_name ++ ":" ++ toString line_number

/-- `models.create_field_id`. -/
def create_field_id (class_id field_name : String) : String :=
  "field:" ++ class_id ++ ":" ++ field_name

/-- `models.create_relationship_id`. -/
def create_relationship_id (from_entity to_entity : String)
    (rel_type : DependencyType) : String :=
  "rel:" ++ from_entity ++ "->" ++ to_entity ++ ":" ++ rel_type.value

/-! ## A fragment of the Python abstract syntax tree

The extractor (`pyview/ast_analyzer.py`) walks trees produced by the CPython
`ast` module.  The fragment below covers every node kind the extractor
dispatches on, plus the generic expression shapes its helpers render.  List-
and option-shaped children use dedicated mutual inductives (`PyExprList`,
`PyStmtList`, …) so that every function over the tree is a plain structural
recursion (and therefore evaluates definitionally on concrete inputs). -/

/-- A Python literal constant, with its `repr(...)` and `str(...)` renderings
defined below. -/
inductive PyConst where
  | pcStr (s : String)
  | pcInt (n : Int)
  | pcBool (b : Bool)
  | pcNone
deriving DecidableEq, Repr

/-- `repr(value)` for the constants of the fragment (string escaping inside
literals is not modelled). -/
def PyConst.reprStr : PyConst → String
  | .pcStr s => "\x27" ++ s ++ "\x27"
  | .pcInt n => toString n
  | .pcBool true => "True"
  | .pcBool false => "False"
  | .pcNone => "None"

/-- `str(value)` for the constants of the fragment. -/
def PyConst.strStr : PyConst → String
  | .pcStr s => s
  | .pcInt n => toString n
  | .pcBool true => "True"
  | .pcBool false => "False"
  | .pcNone => "None"

/-- The boolean operator of an `ast.BoolOp` node (`ast.And` / `ast.Or`).  In
CPython the operator is itself an AST node and is yielded by `ast.walk`; each
`BoolOp` has exactly one operator node regardless of how many operands the
chain has. -/
inductive BoolOpKind where
  | andOp
  | orOp
deriving DecidableEq, Repr

/-- The expression context of a name / attribute node (`ast.Load` vs
`ast.Store`; `Del` does not occur in the claims' inputs). -/
inductive ExprCtx where
  | load
  | store
deriving DecidableEq, Repr

/-- `import x [as y]` / `from m import x [as y]` name items (`ast.alias`). -/
abbrev ImportNames := List (String × Option String)

mutual

/-- Python expressions (fragment). -/
inductive PyExpr where
  | nameE (id : String) (ctx : ExprCtx)
  | constE (value : PyConst)
  | attributeE (value : PyExpr) (attr : String) (ctx : ExprCtx) (lineno : Nat)
  | boolOpE (op : BoolOpKind) (values : PyExprList)
  | callE (func : PyExpr) (args : PyExprList) (lineno : Nat)
  | subscriptE (value : PyExpr) (index : PyExpr)
  | listCompE (elt : PyExpr) (generators : CompList)

/-- A list of expressions (child list of a node). -/
inductive PyExprList where
  | nil
  | cons (head : PyExpr) (tail : PyExprList)

/-- An optional expression child. -/
inductive OptPyExpr where
  | noneE
  | someE (e : PyExpr)

/-- An `ast.comprehension` clause; `ast.walk` yields it as a node of its own. -/
inductive Comprehension where
  | mk (target : PyExpr) (iter : PyExpr) (ifs : PyExprList)

/-- A list of comprehension clauses. -/
inductive CompList where
  | nil
  | cons (head : Comprehension) (tail : CompList)

/-- Python statements (fragment).  Field order mirrors `ast`'s `_fields`
order, which fixes the order `generic_visit` walks children in. -/
inductive PyStmt where
  | functionDef (name : String) (args : List String) (body : PyStmtList)
      (decorator_list : PyExprList) (returns : OptPyExpr) (lineno : Nat)
  | asyncFunctionDef (name : String) (args : List String) (body : PyStmtList)
      (decorator_list : PyExprList) (returns : OptPyExpr) (lineno : Nat)
  | classDef (name : String) (bases : PyExprList) (body : PyStmtList)
      (decorator_list : PyExprList) (lineno : Nat)
  | assign (targets : PyExprList) (value : PyExpr) (lineno : Nat)
  | annAssign (target : PyExpr) (ann : PyExpr) (value : OptPyExpr) (lineno : Nat)
  | importStmt (names : ImportNames) (lineno : Nat)
  | importFrom (module : Option String) (names : ImportNames) (level : Nat) (lineno : Nat)
  | ifStmt (test : PyExpr) (body : PyStmtList) (orelse : PyStmtList)
  | whileStmt (test : PyExpr) (body : PyStmtList) (orelse : PyStmtList)
  | forStmt (target : PyExpr) (iter : PyExpr) (body : PyStmtList) (orelse : PyStmtList)
  | asyncForStmt (target : PyExpr) (iter : PyExpr) (body : PyStmtList) (orelse : PyStmtList)
  | tryStmt (body : PyStmtList) (handlers : HandlerList) (orelse : PyStmtList)
      (finalbody : PyStmtList)
  | ret (value : OptPyExpr) (lineno : Nat)
  | exprStmt (value : PyExpr) (lineno : Nat)
  | passStmt

/-- An `ast.ExceptHandler` node (only its body matters to the claims). -/
inductive ExceptHandler where
  | mk (body : PyStmtList)

/-- A list of except handlers. -/
inductive HandlerList where
  | nil
  | cons (head : ExceptHandler) (tail : HandlerList)

/-- A list of statements (a body). -/
inductive PyStmtList where
  | nil
  | cons (head : PyStmt) (tail : PyStmtList)

end

/-- Build a `PyExprList` from a Lean list (input convenience only). -/
def exprsOf : List PyExpr → PyExprList
  | [] => .nil
  | e :: t => .cons e (exprsOf t)

/-- Build a `PyStmtList` from a Lean list (input convenience only). -/
def stmtsOf : List PyStmt → PyStmtList
  | [] => .nil
  | s :: t => .cons s (stmtsOf t)

/-- View a `PyExprList` as a Lean list (the children of a node, in order). -/
def pyExprListToList : PyExprList → List PyExpr
  | .nil => []
  | .cons e t => e :: pyExprListToList t

/-! ### Cyclomatic complexity (`SymbolTableBuilder._calculate_complexity`)

The source walks the whole function node with `ast.walk` and adds one for
every `If`, `While`, `For`, `AsyncFor`, `ExceptHandler`, `And`, `Or` and
`comprehension` node encountered.  `ast.walk` visits every descendant,
including the operator node of each `BoolOp` (exactly one per `BoolOp`,
however many operands the chain has), annotations, decorators and nested
function bodies.  The mutual functions below compute, for each node, the sum
of those walk contributions over the node's subtree. -/

mutual

/-- Walk contributions of a statement's subtree. -/
def cxStmt : PyStmt → Nat
  | .functionDef _ _ body decs r _ => cxStmts body + cxExprs decs + cxOpt r
  | .asyncFunctionDef _ _ body decs r _ => cxStmts body + cxExprs decs + cxOpt r
  | .classDef _ bases body decs _ => cxExprs bases + cxStmts body + cxExprs decs
  | .assign targets value _ => cxExprs targets + cxExpr value
  | .annAssign target ann value _ => cxExpr target + cxExpr ann + cxOpt value
  | .importStmt _ _ => 0
  | .importFrom _ _ _ _ => 0
  | .ifStmt test body orelse => 1 + cxExpr test + cxStmts body + cxStmts orelse
  | .whileStmt test body orelse => 1 + cxExpr test + cxStmts body + cxStmts orelse
  | .forStmt target iter body orelse =>
      1 + cxExpr target + cxExpr iter + cxStmts body + cxStmts orelse
  | .asyncForStmt target iter body orelse =>
      1 + cxExpr target + cxExpr iter + cxStmts body + cxStmts orelse
  | .tryStmt body handlers orelse finalbody =>
      cxStmts body + cxHandlers handlers + cxStmts orelse + cxStmts finalbody
  | .ret v _ => cxOpt v
  | .exprStmt v _ => cxExpr v
  | .passStmt => 0

/-- Walk contributions of a body. -/
def cxStmts : PyStmtList → Nat
  | .nil => 0
  | .cons s t => cxStmt s + cxStmts t

/-- Walk contributions of an expression's subtree; a `BoolOp` contributes 1
for its single `And`/`Or` operator node. -/
def cxExpr : PyExpr → Nat
  | .nameE _ _ => 0
  | .constE _ => 0
  | .attributeE v _ _ _ => cxExpr v
  | .boolOpE _ values => 1 + cxExprs values
  | .callE f args _ => cxExpr f + cxExprs args
  | .subscriptE v i => cxExpr v + cxExpr i
  | .listCompE elt gens => cxExpr elt + cxComps gens

/-- Walk contributions of an expression list. -/
def cxExprs : PyExprList → Nat
  | .nil => 0
  | .cons e t => cxExpr e + cxExprs t

/-- Walk contributions of an optional expression. -/
def cxOpt : OptPyExpr → Nat
  | .noneE => 0
  | .someE e => cxExpr e

/-- Walk contributions of a comprehension clause: the clause node itself
counts 1, plus its children. -/
def cxComp : Comprehension → Nat
  | .mk target iter ifs => 1 + cxExpr target + cxExpr iter + cxExprs ifs

/-- Walk contributions of a comprehension-clause list. -/
def cxComps : CompList → Nat
  | .nil => 0
  | .cons c t => cxComp c + cxComps t

/-- Walk contributions of an except handler: the handler node counts 1. -/
def cxHandler : ExceptHandler → Nat
  | .mk body => 1 + cxStmts body

/-- Walk contributions of a handler list. -/
def cxHandlers : HandlerList → Nat
  | .nil => 0
  | .cons h t => cxHandler h + cxHandlers t

end

/-- `SymbolTableBuilder._calculate_complexity`: base 1 plus the walk
contributions of the whole function node. -/
def calculateComplexity (node : PyStmt) : Nat :=
  1 + cxStmt node

/-! ### Textual renderings (`_extract_name`, `_extract_annotation`,
`_extract_value` and the `ast.unparse` fallback) -/

/-- `'needle' in haystack` for Python strings. -/
def strContains (haystack needle : String) : Bool :=
  decide (needle.toList <:+: haystack.toList)

mutual

/-- A rendering of `ast.unparse` on the fragment (used only by the fallback
branches of `_extract_annotation` / `_extract_value`; no claim exercises it
beyond names, attributes, constants and subscripts). -/
def pyUnparse : PyExpr → String
  | .nameE id _ => id
  | .constE c => c.reprStr
  | .attributeE v a _ _ => pyUnparse v ++ "." ++ a
  | .boolOpE op values =>
      String.intercalate (match op with | .andOp => " and " | .orOp => " or ")
        (pyUnparseList values)
  | .callE f args _ =>
      pyUnparse f ++ "(" ++ String.intercalate ", " (pyUnparseList args) ++ ")"
  | .subscriptE v i => pyUnparse v ++ "[" ++ pyUnparse i ++ "]"
  | .listCompE elt gens =>
      "[" ++ pyUnparse elt ++ String.join (pyUnparseComps gens) ++ "]"

/-- Renderings of an expression list. -/
def pyUnparseList : PyExprList → List String
  | .nil => []
  | .cons e t => pyUnparse e :: pyUnparseList t

/-- Rendering of a comprehension clause. -/
def pyUnparseComp : Comprehension → String
  | .mk target iter ifs =>
      " for " ++ pyUnparse target ++ " in " ++ pyUnparse iter ++
        String.join ((pyUnparseList ifs).map (" if " ++ ·))

/-- Renderings of a comprehension-clause list. -/
def pyUnparseComps : CompList → List String
  | .nil => []
  | .cons c t => pyUnparseComp c :: pyUnparseComps t

end

/-- `SymbolTableBuilder._extract_name`: names, dotted attribute chains (with
the `if base else` fallback) and `str(...)` of constants; `None` otherwise. -/
def extractName : PyExpr → Option String
  | .nameE id _ => some id
  | .attributeE v a _ _ =>
      match extractName v with
      | some base => some (base ++ "." ++ a)
      | none => some a
  | .constE c => some c.strStr
  | _ => none

/-- `SymbolTableBuilder._extract_annotation`: names, attribute chains,
`repr(...)` of constants, subscripts, and `ast.unparse` otherwise. -/
def extractAnn : PyExpr → String
  | .nameE id _ => id
  | .attributeE v a _ _ => extractAnn v ++ "." ++ a
  | .constE c => c.reprStr
  | .subscriptE v i => extractAnn v ++ "[" ++ extractAnn i ++ "]"
  | e => pyUnparse e

/-- `SymbolTableBuilder._extract_value`: `repr(...)` of constants, plain
names, `ast.unparse` otherwise (the enclosing `try` never fires on the pure
fragment, so the result is always `some`). -/
def extractValue : PyExpr → Option String
  | .constE c => some c.reprStr
  | .nameE id _ => some id
  | e => some (pyUnparse e)

/-- `ast.get_docstring(node)`: the string constant that is the first
statement of the body, if any (indentation cleaning is not modelled). -/
def getDocstring : PyStmtList → Option String
  | .cons (.exprStmt (.constE (.pcStr s)) _) _ => some s
  | _ => none

/-! ### Pass 1 — the symbol table (`ast_analyzer.SymbolTableBuilder`)

Python mutates `ClassInfo` objects in place (`current_class.methods.append`);
the pure model keeps `classes` as a list and records the *index* of the class
object currently being populated, updating that entry.  The `scope_stack`
keeps exactly what `_create_field`'s `is_class_variable` test inspects: which
stack entries are methods, and their names. -/

/-- One entry of the builder's `scope_stack`. -/
inductive ScopeItem where
  | classScope (index : Nat)
  | methodScope (name : String)
deriving DecidableEq, Repr

/-- The mutable state of `SymbolTableBuilder`. -/
structure BuilderState where
  file_path : String
  module_name : String
  module_id : String
  classes : List ClassInfo := []
  methods : List MethodInfo := []
  fields : List FieldInfo := []
  imports : List ImportInfo := []
  current_class : Option Nat := none    -- index into `classes`
  scope_stack : List ScopeItem := []
deriving Repr

/-- `SymbolTableBuilder.__init__`. -/
def initBuilder (file_path module_name : String) : BuilderState :=
  { file_path := file_path
    module_name := module_name
    module_id := create_module_id module_name }

/-- `SymbolTableBuilder._create_field`. -/
def createField (st : BuilderState) (name : String) (line_number : Nat)
    (ann : Option PyExpr) (value : Option PyExpr) : BuilderState :=
  match st.current_class with
  | none => st
  | some idx =>
    match st.classes[idx]? with
    | none => st   -- unreachable: `current_class` always indexes `classes`
    | some cls =>
      let field_id := create_field_id cls.id name
      let typeAnn := ann.map extractAnn
      let default_value := value.bind extractValue
      let is_class_variable := ! st.scope_stack.any fun s =>
        match s with
        | .methodScope n => n = "__init__"
        | _ => false
      let field_info : FieldInfo :=
        { id := field_id
          name := name
          class_id := cls.id
          line_number := line_number
          file_path := st.file_path
          typeAnn := typeAnn
          default_value := default_value
          is_class_variable := is_class_variable }
      { st with
        fields := st.fields ++ [field_info]
        classes := st.classes.set idx { cls with fields := cls.fields ++ [field_id] } }

/-- Append a method id to the class object `current_class` points at
(`self.current_class.methods.append(method_id)`). -/
def appendMethodToCurrentClass (st : BuilderState) (method_id : String) : BuilderState :=
  match st.current_class with
  | none => st
  | some idx =>
    match st.classes[idx]? with
    | none => st
    | some cls =>
      { st with classes := st.classes.set idx { cls with methods := cls.methods ++ [method_id] } }

mutual

/-- Dispatch of `SymbolTableBuilder.visit` on one statement.  Visitors that
the builder does not override reduce to `generic_visit`, i.e. visiting the
child statement lists; visiting expression children is a no-op for this
builder (it overrides no expression visitor), so those recursions are
omitted. -/
def buildStmt (st : BuilderState) : PyStmt → BuilderState
  | .importStmt names lineno =>
      -- visit_Import: one ImportInfo per alias
      { st with imports := st.imports ++ names.map fun (n, a) =>
          { module := n, asname := a, line_number := lineno, import_type := "import" } }
  | .importFrom module names level lineno =>
      -- visit_ImportFrom: skipped entirely when `node.module` is None
      match module with
      | none => st
      | some m =>
          { st with imports := st.imports ++ names.map fun (n, a) =>
              { module := m, name := some n, asname := a, line_number := lineno,
                import_type := "from_import", is_relative := decide (0 < level) } }
  | .classDef name bases body decorator_list lineno =>
      -- visit_ClassDef
      let class_id := create_class_id st.module_id name
      let basesN := (pyExprListToList bases).filterMap extractName
      let decoratorsN := (pyExprListToList decorator_list).filterMap extractName
      let docstring := getDocstring body
      let is_abstract := decoratorsN.any fun d =>
        strContains d.toLower "abc" || strContains d.toLower "abstract"
      let class_info : ClassInfo :=
        { id := class_id
          name := name
          module_id := st.module_id
          line_number := lineno
          file_path := st.file_path
          bases := basesN
          decorators := decoratorsN
          is_abstract := is_abstract
          docstring := docstring }
      let idx := st.classes.length
      let old_class := st.current_class
      let st := { st with
        classes := st.classes ++ [class_info]
        current_class := some idx
        scope_stack := st.scope_stack ++ [.classScope idx] }
      let st := buildStmts st body
      { st with current_class := old_class, scope_stack := st.scope_stack.dropLast }
  | .functionDef name args body decorator_list returns lineno =>
      -- visit_FunctionDef → _visit_function_def
      let is_method := st.current_class.isSome
      let class_id := st.current_class.bind fun idx => (st.classes[idx]?).map (·.id)
      let method_id := create_method_id class_id name lineno
      let returnAnn := match returns with
        | .noneE => none
        | .someE r => some (extractAnn r)
      let decoratorsN := (pyExprListToList decorator_list).filterMap extractName
      let is_static := decoratorsN.any (fun d => d = "staticmethod" || d = "staticmethod()")
      let is_class_method := decoratorsN.any (fun d => d = "classmethod" || d = "classmethod()")
      let is_property := decoratorsN.any (fun d => d = "property" || d = "property()")
      let docstring := getDocstring body
      let complexity := calculateComplexity (.functionDef name args body decorator_list returns lineno)
      let method_info : MethodInfo :=
        { id := method_id
          name := name
          line_number := lineno
          file_path := st.file_path
          class_id := class_id
          args := args
          returnAnn := returnAnn
          decorators := decoratorsN
          is_method := is_method
          is_static := is_static
          is_class_method := is_class_method
          is_property := is_property
          complexity := complexity
          docstring := docstring }
      let st := { st with methods := st.methods ++ [method_info] }
      let st := if is_method then appendMethodToCurrentClass st method_id else st
      let st := { st with scope_stack := st.scope_stack ++ [.methodScope name] }
      let st := buildStmts st body
      { st with scope_stack := st.scope_stack.dropLast }
  | .asyncFunctionDef name args body decorator_list returns lineno =>
      -- visit_AsyncFunctionDef → _visit_function_def (same body as above)
      let is_method := st.current_class.isSome
      let class_id := st.current_class.bind fun idx => (st.classes[idx]?).map (·.id)
      let method_id := create_method_id class_id name lineno
      let returnAnn := match returns with
        | .noneE => none
        | .someE r => some (extractAnn r)
      let decoratorsN := (pyExprListToList decorator_list).filterMap extractName
      let is_static := decoratorsN.any (fun d => d = "staticmethod" || d = "staticmethod()")
      let is_class_method := decoratorsN.any (fun d => d = "classmethod" || d = "classmethod()")
      let is_property := decoratorsN.any (fun d => d = "property" || d = "property()")
      let docstring := getDocstring body
      let complexity := calculateComplexity (.asyncFunctionDef name args body decorator_list returns lineno)
      let method_info : MethodInfo :=
        { id := method_id
          name := name
          line_number := lineno
          file_path := st.file_path
          class_id := class_id
          args := args
          returnAnn := returnAnn
          decorators := decoratorsN
          is_method := is_method
          is_static := is_static
          is_class_method := is_class_method
          is_property := is_property
          complexity := complexity
          docstring := docstring }
      let st := { st with methods := st.methods ++ [method_info] }
      let st := if is_method then appendMethodToCurrentClass st method_id else st
      let st := { st with scope_stack := st.scope_stack ++ [.methodScope name] }
      let st := buildStmts st body
      { st with scope_stack := st.scope_stack.dropLast }
  | .annAssign target ann value lineno =>
      -- visit_AnnAssign: only simple-name targets inside a class body
      if st.current_class.isSome then
        match target with
        | .nameE id _ =>
            createField st id lineno (some ann)
              (match value with | .noneE => none | .someE v => some v)
        | _ => st
      else st
  | .assign targets value lineno =>
      -- visit_Assign: simple names and `self.attr` targets inside a class body
      if st.current_class.isSome then
        buildAssignTargets st targets value lineno
      else st
  | .ifStmt _ body orelse => buildStmts (buildStmts st body) orelse
  | .whileStmt _ body orelse => buildStmts (buildStmts st body) orelse
  | .forStmt _ _ body orelse => buildStmts (buildStmts st body) orelse
  | .asyncForStmt _ _ body orelse => buildStmts (buildStmts st body) orelse
  | .tryStmt body handlers orelse finalbody =>
      buildStmts (buildStmts (buildHandlers (buildStmts st body) handlers) orelse) finalbody
  | .ret _ _ => st
  | .exprStmt _ _ => st
  | .passStmt => st

/-- The `for target in node.targets` loop of `visit_Assign`. -/
def buildAssignTargets (st : BuilderState) (targets : PyExprList) (value : PyExpr)
    (lineno : Nat) : BuilderState :=
  match targets with
  | .nil => st
  | .cons t rest =>
    let st := match t with
      | .nameE id _ => createField st id lineno none (some value)
      | .attributeE (.nameE vid _) attr _ _ =>
          if vid = "self" then createField st attr lineno none (some value) else st
      | _ => st
    buildAssignTargets st rest value lineno

/-- `generic_visit` over a body. -/
def buildStmts (st : BuilderState) : PyStmtList → BuilderState
  | .nil => st
  | .cons s t => buildStmts (buildStmt st s) t

/-- `generic_visit` over except handlers. -/
def buildHandlers (st : BuilderState) : HandlerList → BuilderState
  | .nil => st
  | .cons (.mk body) t => buildHandlers (buildStmts st body) t

end

/-- Run `SymbolTableBuilder` over a parsed module body. -/
def runSymbolTable (file_path module_name : String) (tree : PyStmtList) : BuilderState :=
  buildStmts (initBuilder file_path module_name) tree

/-! ### Pass 2 — reference extraction (`ast_analyzer.ReferenceExtractor`) -/

/-- One entry of the extractor's `scope_stack` (a class or method object). -/
inductive RScopeItem where
  | cls (c : ClassInfo)
  | meth (m : MethodInfo)
deriving DecidableEq, Repr

/-- The mutable state of `ReferenceExtractor` (the read-only `symbol_table`
is passed as an argument to the traversal instead). -/
structure ExtractorState where
  relationships : List Relationship := []
  current_method : Option MethodInfo := none
  scope_stack : List RScopeItem := []
deriving Repr

/-- `ReferenceExtractor._extract_name`: names and dotted attribute chains
only (no constant case, unlike the builder's namesake). -/
def extractNameR : PyExpr → Option String
  | .nameE id _ => some id
  | .attributeE v a _ _ =>
      match extractNameR v with
      | some base => some (base ++ "." ++ a)
      | none => some a
  | _ => none

/-- `ReferenceExtractor._extract_call_target` (defers to `_extract_name`). -/
def extractCallTarget (e : PyExpr) : Option String :=
  extractNameR e

/-- `ReferenceExtractor._extract_attribute_target`: `value.attr` only when
the value is a plain name. -/
def extractAttributeTarget (value : PyExpr) (attr : String) : Option String :=
  match value with
  | .nameE vid _ => some (vid ++ "." ++ attr)
  | _ => none

mutual

/-- Dispatch of `ReferenceExtractor.visit` on one statement.  `generic_visit`
recursions follow the `_fields` order of each node kind. -/
def extractStmt (tbl : BuilderState) (st : ExtractorState) : PyStmt → ExtractorState
  | .classDef name bases body decorator_list _lineno =>
      -- visit_ClassDef: one inheritance edge per extractable base name
      let class_id := create_class_id tbl.module_id name
      let st := (pyExprListToList bases).foldl (fun st base =>
        match extractNameR base with
        | some base_name =>
            { st with relationships := st.relationships ++
                [{ id := create_relationship_id class_id base_name .inheritance
                   from_entity := class_id
                   to_entity := base_name
                   relationship_type := .inheritance
                   line_number := _lineno
                   file_path := tbl.file_path
                   strength := 1 }] }
        | none => st) st
      let class_info := tbl.classes.find? (·.id = class_id)
      let st := match class_info with
        | some c => { st with scope_stack := st.scope_stack ++ [.cls c] }
        | none => st
      let st := extractExprs tbl st bases
      let st := extractStmts tbl st body
      let st := extractExprs tbl st decorator_list
      match class_info with
      | some _ => { st with scope_stack := st.scope_stack.dropLast }
      | none => st
  | .functionDef name _args body decorator_list returns lineno =>
      -- visit_FunctionDef → _visit_function_def
      let current_class := st.scope_stack.reverse.findSome? fun s =>
        match s with | .cls c => some c | .meth _ => none
      let method_id := create_method_id (current_class.map (·.id)) name lineno
      let method_info := tbl.methods.find? (·.id = method_id)
      let st := match method_info with
        | some mi => { st with current_method := some mi,
                               scope_stack := st.scope_stack ++ [.meth mi] }
        | none => st
      let st := extractStmts tbl st body
      let st := extractExprs tbl st decorator_list
      let st := extractOptE tbl st returns
      match method_info with
      | some _ => { st with current_method := none, scope_stack := st.scope_stack.dropLast }
      | none => st
  | .asyncFunctionDef name _args body decorator_list returns lineno =>
      -- visit_AsyncFunctionDef → _visit_function_def (same as above)
      let current_class := st.scope_stack.reverse.findSome? fun s =>
        match s with | .cls c => some c | .meth _ => none
      let method_id := create_method_id (current_class.map (·.id)) name lineno
      let method_info := tbl.methods.find? (·.id = method_id)
      let st := match method_info with
        | some mi => { st with current_method := some mi,
                               scope_stack := st.scope_stack ++ [.meth mi] }
        | none => st
      let st := extractStmts tbl st body
      let st := extractExprs tbl st decorator_list
      let st := extractOptE tbl st returns
      match method_info with
      | some _ => { st with current_method := none, scope_stack := st.scope_stack.dropLast }
      | none => st
  | .assign targets value _ => extractExpr tbl (extractExprs tbl st targets) value
  | .annAssign target ann value _ =>
      extractOptE tbl (extractExpr tbl (extractExpr tbl st target) ann) value
  | .importStmt _ _ => st
  | .importFrom _ _ _ _ => st
  | .ifStmt test body orelse =>
      extractStmts tbl (extractStmts tbl (extractExpr tbl st test) body) orelse
  | .whileStmt test body orelse =>
      extractStmts tbl (extractStmts tbl (extractExpr tbl st test) body) orelse
  | .forStmt target iter body orelse =>
      extractStmts tbl (extractStmts tbl (extractExpr tbl (extractExpr tbl st target) iter) body) orelse
  | .asyncForStmt target iter body orelse =>
      extractStmts tbl (extractStmts tbl (extractExpr tbl (extractExpr tbl st target) iter) body) orelse
  | .tryStmt body handlers orelse finalbody =>
      extractStmts tbl (extractStmts tbl (extractHandlers tbl (extractStmts tbl st body) handlers) orelse) finalbody
  | .ret value _ => extractOptE tbl st value
  | .exprStmt value _ => extractExpr tbl st value
  | .passStmt => st

/-- Traversal over a body. -/
def extractStmts (tbl : BuilderState) (st : ExtractorState) : PyStmtList → ExtractorState
  | .nil => st
  | .cons s t => extractStmts tbl (extractStmt tbl st s) t

/-- Dispatch of `ReferenceExtractor.visit` on one expression
(`visit_Call`, `visit_Attribute`, `generic_visit` otherwise). -/
def extractExpr (tbl : BuilderState) (st : ExtractorState) : PyExpr → ExtractorState
  | .callE func args lineno =>
      -- visit_Call: emit a call edge, then generic_visit children
      let st := match st.current_method with
        | some m =>
            match extractCallTarget func with
            | some call_target =>
                { st with relationships := st.relationships ++
                    [{ id := create_relationship_id m.id call_target .call
                       from_entity := m.id
                       to_entity := call_target
                       relationship_type := .call
                       line_number := lineno
                       file_path := tbl.file_path
                       strength := 1 }] }
            | none => st
        | none => st
      extractExprs tbl (extractExpr tbl st func) args
  | .attributeE value attr ctx lineno =>
      -- visit_Attribute: emit an attribute edge on loads, then generic_visit
      let st := match st.current_method with
        | some m =>
            if ctx = .load then
              match extractAttributeTarget value attr with
              | some attr_target =>
                  { st with relationships := st.relationships ++
                      [{ id := create_relationship_id m.id attr_target .attribute_access
                         from_entity := m.id
                         to_entity := attr_target
                         relationship_type := .attribute_access
                         line_number := lineno
                         file_path := tbl.file_path
                         strength := 1/2 }] }
              | none => st
            else st
        | none => st
      extractExpr tbl st value
  | .nameE _ _ => st
  | .constE _ => st
  | .boolOpE _ values => extractExprs tbl st values
  | .subscriptE value index => extractExpr tbl (extractExpr tbl st value) index
  | .listCompE elt gens => extractComps tbl (extractExpr tbl st elt) gens

/-- Traversal over an expression list. -/
def extractExprs (tbl : BuilderState) (st : ExtractorState) : PyExprList → ExtractorState
  | .nil => st
  | .cons e t => extractExprs tbl (extractExpr tbl st e) t

/-- Traversal over an optional expression. -/
def extractOptE (tbl : BuilderState) (st : ExtractorState) : OptPyExpr → ExtractorState
  | .noneE => st
  | .someE e => extractExpr tbl st e

/-- Traversal over comprehension clauses. -/
def extractComps (tbl : BuilderState) (st : ExtractorState) : CompList → ExtractorState
  | .nil => st
  | .cons (.mk target iter ifs) t =>
      extractComps tbl (extractExprs tbl (extractExpr tbl (extractExpr tbl st target) iter) ifs) t

/-- Traversal over except handlers. -/
def extractHandlers (tbl : BuilderState) (st : ExtractorState) : HandlerList → ExtractorState
  | .nil => st
  | .cons (.mk body) t => extractHandlers tbl (extractStmts tbl st body) t

end

/-- Run `ReferenceExtractor` over a parsed module body, given the completed
symbol table. -/
def runReferenceExtractor (tbl : BuilderState) (tree : PyStmtList) : List Relationship :=
  (extractStmts tbl {} tree).relationships

/-! ### `ASTAnalyzer` (`ast_analyzer.py`, bottom) -/

/-- `ASTAnalyzer._get_module_name`'s marker-scanning loop index: the first
`i` (0-based, scanning prefixes of the directory components from longest to
shortest) whose prefix directory contains `setup.py`, `pyproject.toml` or
`__init__.py`; if none does, the loop variable is left at its final value
`n - 1`. -/
def findMarkerIdx (hasMarker : List String → Bool) (dirs : List String) : Nat :=
  ((List.range dirs.length).find? fun i => hasMarker (dirs.take (dirs.length - i))).getD
    (dirs.length - 1)

/-- `ASTAnalyzer._get_module_name`.  `hasMarker prefixDirs` abstracts the
file-system checks for the package markers in the directory given by
`prefixDirs`.  Paths are the normalized relative paths `os.walk` produces.
With no directory component the Python loop never binds its variable and the
subsequent read raises `NameError` — modelled as `Except.error`. -/
def getModuleName (hasMarker : List String → Bool) (file_path : String) :
    Except String String :=
  let comps := strSplitOnChar '/' file_path
  let filename := comps.getLastD ""
  let module_name := if strEndsWith filename ".py" then strDropRight filename 3 else filename
  let dirs := comps.dropLast
  if dirs.isEmpty then
    .error "NameError: name i is not defined"
  else
    let i := findMarkerIdx hasMarker dirs
    let remaining_parts := dirs.drop (dirs.length - i)
    if remaining_parts.isEmpty then .ok module_name
    else .ok (String.intercalate "." (remaining_parts ++ [module_name]))

/-- `ast_analyzer.FileAnalysis`. -/
structure FileAnalysis where
  file_path : String
  module_info : ModuleInfo
  classes : List ClassInfo
  methods : List MethodInfo
  fields : List FieldInfo
  imports : List ImportInfo
  relationships : List Relationship
  parse_error : Option String := none
deriving DecidableEq, Repr

/-- The outcome of reading and parsing one file — the effectful part of
`ASTAnalyzer.analyze_file` (the `open`/`read` calls and CPython's
`ast.parse`), supplied as an input:
* `parsed loc tree` — the file was read (`loc` lines) and parsed;
* `synErr msg` — `ast.parse` raised `SyntaxError` with `str(e) = msg`;
* `readErr msg` — reading (or anything other than parsing) raised a
  non-`SyntaxError` exception, e.g. `UnicodeDecodeError` or `OSError`. -/
inductive SourceOutcome where
  | parsed (loc : Nat) (tree : PyStmtList)
  | synErr (msg : String)
  | readErr (msg : String)

/-- `ASTAnalyzer.analyze_file`.  `Except.error` models an exception escaping
the function (only possible from the `except SyntaxError` handler itself);
`Except.ok none` models the `except Exception` branch returning `None`. -/
def analyzeFile (hasMarker : List String → Bool) (file_path : String)
    (outcome : SourceOutcome) : Except String (Option FileAnalysis) :=
  match outcome with
  | .parsed loc tree =>
    match getModuleName hasMarker file_path with
    | .error _ => .ok none   -- NameError caught by `except Exception` → None
    | .ok module_name =>
      let symbol_builder := runSymbolTable file_path module_name tree
      let relationships := runReferenceExtractor symbol_builder tree
      let module_id := create_module_id module_name
      let module_info : ModuleInfo :=
        { id := module_id
          name := module_name
          file_path := file_path
          classes := symbol_builder.classes.map (·.id)
          functions := (symbol_builder.methods.filter (fun m => !m.is_method)).map (·.id)
          imports := symbol_builder.imports
          loc := loc
          docstring := getDocstring tree }
      .ok (some
        { file_path := file_path
          module_info := module_info
          classes := symbol_builder.classes
          methods := symbol_builder.methods
          fields := symbol_builder.fields
          imports := symbol_builder.imports
          relationships := relationships })
  | .synErr msg =>
    -- the SyntaxError handler; _get_module_name may itself raise NameError
    match getModuleName hasMarker file_path with
    | .error e => .error e
    | .ok module_name =>
      .ok (some
        { file_path := file_path
          module_info :=
            { id := create_module_id module_name
              name := module_name
              file_path := file_path }
          classes := []
          methods := []
          fields := []
          imports := []
          relationships := []
          parse_error := some msg })
  | .readErr _ => .ok none   -- `except Exception`: log and return None

/-- `AnalyzerEngine._run_sequential_ast_analysis`: analyze each file in turn,
keep the non-`None` results, and swallow (log) any exception a single file
raises. -/
def runSequentialAstAnalysis (hasMarker : List String → Bool) :
    List (String × SourceOutcome) → List FileAnalysis
  | [] => []
  | (file_path, outcome) :: rest =>
    match analyzeFile hasMarker file_path outcome with
    | .ok (some analysis) => analysis :: runSequentialAstAnalysis hasMarker rest
    | .ok none => runSequentialAstAnalysis hasMarker rest
    | .error _ => runSequentialAstAnalysis hasMarker rest

/-- All entity ids of one `FileAnalysis` (module, classes, methods, fields) —
the per-file contribution to the run's entity set. -/
def allEntityIds (fa : FileAnalysis) : List String :=
  fa.module_info.id :: (fa.classes.map (·.id) ++ fa.methods.map (·.id) ++ fa.fields.map (·.id))

/-! ## The pattern matcher (`pyview/gitignore_patterns.py`)

`GitIgnorePatternMatcher` delegates all matching to the standard library's
`fnmatch.fnmatch`.  `fnmatch` translates a pattern into a regular expression
in which `*` becomes `.*` — matching ANY run of characters, the path
separator `/` included (`fnmatch` is not path-aware).  The model below
implements exactly the semantics of that translated regex on the glob tokens
`*`, `?`, literal characters and `[...]` character classes (negation with a
leading `!`, ranges `a-b`, a leading `]` taken literally, an unterminated
`[` taken literally).  `os.path.normcase` is the identity on POSIX and is
omitted. -/

/-- An item of a `[...]` character class. -/
inductive ClassItem where
  | single (c : Char)
  | range (lo hi : Char)
deriving DecidableEq, Repr

/-- A compiled glob token. -/
inductive GlobTok where
  | star
  | anyChar
  | lit (c : Char)
  | charClass (negated : Bool) (items : List ClassItem)
deriving DecidableEq, Repr

/-- Split a character-class body at its closing `]`; `none` when
unterminated. -/
def splitClose : List Char → Option (List Char × List Char)
  | [] => none
  | ']' :: t => some ([], t)
  | c :: t => (splitClose t).map fun (a, b) => (c :: a, b)

/-- Parse the body of a `[...]` class (the characters after the `[`):
optional leading `!` negation, a leading `]` is literal content. -/
def parseCharClass (cs : List Char) : Option (Bool × List Char × List Char) :=
  let (negated, cs1) := match cs with
    | '!' :: t => (true, t)
    | _ => (false, cs)
  match cs1 with
  | ']' :: t => (splitClose t).map fun (a, b) => (negated, ']' :: a, b)
  | _ => (splitClose cs1).map fun (a, b) => (negated, a, b)

/-- Interpret class-body characters as singles and `a-b` ranges (a `-` at
either end is literal, as in the translated regex). -/
def itemsOf : List Char → List ClassItem
  | a :: '-' :: b :: rest => .range a b :: itemsOf rest
  | a :: rest => .single a :: itemsOf rest
  | [] => []

/-- Does character `c` satisfy a (possibly negated) class? -/
def matchClassChar (negated : Bool) (items : List ClassItem) (c : Char) : Bool :=
  let inClass := items.any fun it =>
    match it with
    | .single x => x = c
    | .range lo hi => lo ≤ c && c ≤ hi
  if negated then !inClass else inClass

/-- Compile a pattern into glob tokens (the fuel is the pattern length, which
bounds the number of steps since each step consumes at least one character). -/
def compileGlobAux : Nat → List Char → List GlobTok
  | 0, _ => []
  | _, [] => []
  | fuel + 1, '*' :: t => .star :: compileGlobAux fuel t
  | fuel + 1, '?' :: t => .anyChar :: compileGlobAux fuel t
  | fuel + 1, '[' :: t =>
      match parseCharClass t with
      | some (negated, body, rest) => .charClass negated (itemsOf body) :: compileGlobAux fuel rest
      | none => .lit '[' :: compileGlobAux fuel t
  | fuel + 1, c :: t => .lit c :: compileGlobAux fuel t

/-- Compile a whole pattern. -/
def compilePattern (cs : List Char) : List GlobTok :=
  compileGlobAux cs.length cs

/-- Match compiled tokens against a character list.  The `star` case realizes
`.*`: the rest of the pattern may match ANY suffix of the remaining input —
in particular the characters `star` consumes may contain `/`. -/
def globMatch : List GlobTok → List Char → Bool
  | [], s => s.isEmpty
  | .star :: ts, s => s.tails.any fun t => globMatch ts t
  | .anyChar :: ts, s =>
      match s with
      | [] => false
      | _ :: s2 => globMatch ts s2
  | .lit c :: ts, s =>
      match s with
      | [] => false
      | c2 :: s2 => c = c2 && globMatch ts s2
  | .charClass negated items :: ts, s =>
      match s with
      | [] => false
      | c :: s2 => matchClassChar negated items c && globMatch ts s2

/-- `fnmatch.fnmatch(name, pattern)` (POSIX `normcase`). -/
def fnmatchStr (name pattern : String) : Bool :=
  globMatch (compilePattern pattern.toList) name.toList

/-! ### `GitIgnorePatternMatcher` itself

Paths handed to `should_exclude` by file discovery are normalized relative
paths; for those, `str(Path(p)) = p`, `Path(p).name` is the last `/`-separated
component and `Path(p).parts` are the components, which is how the model
reads them.  Whether the path names a directory (`Path.is_dir`, a file-system
query) is the `isDir` argument. -/

/-- `Path(p).name` for a normalized relative path. -/
def pathName (p : String) : String :=
  (strSplitOnChar '/' p).getLastD ""

/-- `Path(p).parts` for a normalized relative path. -/
def pathParts (p : String) : List String :=
  strSplitOnChar '/' p

/-- `os.path.basename`. -/
def osBasename (p : String) : String :=
  (strSplitOnChar '/' p).getLastD ""

/-- `os.path.dirname`. -/
def osDirname (p : String) : String :=
  String.intercalate "/" (strSplitOnChar '/' p).dropLast

/-- `pattern.replace('**', '*')` (left-to-right, non-overlapping). -/
def replaceDoubleStar : List Char → List Char
  | '*' :: '*' :: rest => '*' :: replaceDoubleStar rest
  | c :: rest => c :: replaceDoubleStar rest
  | [] => []

/-- The matcher: exclude patterns and `!`-re-include patterns, split by the
constructor. -/
structure GitIgnoreMatcher where
  include_patterns : List String := []
  exclude_patterns : List String := []
deriving DecidableEq, Repr

/-- `GitIgnorePatternMatcher.__init__`. -/
def mkGitignoreMatcher (patterns : List String) : GitIgnoreMatcher :=
  patterns.foldl
    (fun m pattern =>
      let pattern := strStrip pattern
      if pattern = "" || strStartsWith pattern "#" then m
      else if strStartsWith pattern "!" then
        { m with include_patterns := m.include_patterns ++ [strDropLeft pattern 1] }
      else
        { m with exclude_patterns := m.exclude_patterns ++ [pattern] })
    {}

/-- `GitIgnorePatternMatcher._match_name_parts`: the full path, the final
component, or any single component matches the pattern. -/
def matchNameParts (path_str pattern : String) : Bool :=
  fnmatchStr path_str pattern ||
  fnmatchStr (pathName path_str) pattern ||
  (pathParts path_str).any fun part => fnmatchStr part pattern

/-- `GitIgnorePatternMatcher._match_double_star`. -/
def matchDoubleStar (path_str pattern : String) : Bool :=
  if pattern = "**" then true
  else if strStartsWith pattern "**/" then
    fnmatchStr (osBasename path_str) (strDropLeft pattern 3)
  else if strEndsWith pattern "/**" then
    fnmatchStr (osDirname path_str) (strDropRight pattern 3)
  else
    fnmatchStr path_str (String.mk (replaceDoubleStar pattern.toList))

/-- `GitIgnorePatternMatcher._match_pattern`. -/
def matchPattern (isDir : Bool) (path_str pattern : String) : Bool :=
  if strStartsWith pattern "/" then
    fnmatchStr path_str (strDropLeft pattern 1)
  else if strEndsWith pattern "/" then
    if isDir then matchNameParts path_str (strDropRight pattern 1) else false
  else if strContains pattern "**" then
    matchDoubleStar path_str pattern
  else
    matchNameParts path_str pattern

/-- `GitIgnorePatternMatcher.should_exclude`. -/
def shouldExclude (m : GitIgnoreMatcher) (isDir : Bool) (file_path : String) : Bool :=
  let excluded := m.exclude_patterns.any fun pattern => matchPattern isDir file_path pattern
  if !excluded then false
  else if m.include_patterns.any fun pattern => matchPattern isDir file_path pattern then false
  else excluded

/-! ## Cycle records

The detectors produce plain dictionaries; `CycleDict` collects the keys they
use.  Producers fill different subsets (`_detect_detailed_cycles` emits no
`paths` and no `metrics`; the pydeps detector also attaches `source_info` to
each path, which is elided here as no claim and no consumer reads it). -/

/-- One entry of a cycle dictionary's `paths` list. -/
structure CyclePath where
  fromId : String        -- key 'from'
  toId : String          -- key 'to'
  relationship_type : String
  strength : ℚ
deriving DecidableEq, Repr

/-- The `metrics` sub-dictionary of a cycle record. -/
structure CycleMetrics where
  length : Nat
  average_strength : Option ℚ := none
  total_coupling : Option ℚ := none
  detection_method : Option String := none
  edge_count : Option Nat := none
deriving DecidableEq, Repr

/-- A cycle dictionary as produced by the detectors. -/
structure CycleDict where
  id : String
  entities : List String
  paths : List CyclePath := []
  cycle_type : String
  severity : String
  metrics : Option CycleMetrics := none
  description : Option String := none
deriving DecidableEq, Repr

/-! ## The pydeps cycle path (`legacy_bridge.LegacyBridge`)

The `pydeps.depgraph.Source` class is not part of this repository's sources
(only the library's consumers are); `PySource` models exactly the attributes
`detect_cycles_from_pydeps` and `_calculate_relationship_strength` read, the
degree properties being what the bridge's own comments state they are
(`in_degree` — the module's import count; `out_degree` — its imported-by
count). -/

/-- The slice of `pydeps.depgraph.Source` the bridge reads. -/
structure PySource where
  name : String
  path : Option String := none
  imports : List String := []
  imported_by : List String := []
  in_degree : Nat := 0
  out_degree : Nat := 0
  name_parts : List String := []
  module_depth : Int := 0
  bacon : Nat := 0
deriving DecidableEq, Repr

/-- The `zip`-and-`break` common-dotted-prefix count of
`_calculate_relationship_strength`. -/
def commonPrefixLen : List String → List String → Nat
  | a :: as, b :: bs => if a = b then 1 + commonPrefixLen as bs else 0
  | _, _ => 0

/-- `LegacyBridge._calculate_relationship_strength` (floats as rationals). -/
def calcRelationshipStrength (source target : PySource) : ℚ :=
  let strength : ℚ := 1
  let strength := if source.in_degree > 0 then
      strength * (1 + 1 / (source.in_degree : ℚ)) else strength
  let strength := if target.out_degree > 0 then
      strength * (1 + (target.out_degree : ℚ) * (1/10)) else strength
  let common_prefix_len := commonPrefixLen source.name_parts target.name_parts
  let strength := if common_prefix_len > 0 then
      strength * (1 + (common_prefix_len : ℚ) * (1/2)) else strength
  let depth_diff := (source.module_depth - target.module_depth).natAbs
  let strength := if depth_diff = 0 then strength * (6/5)
      else if depth_diff = 1 then strength * (11/10) else strength
  min strength 5

/-- The inner `for j, source in enumerate(cycle)` loop of
`detect_cycles_from_pydeps`: entity ids in cycle order, plus one path and
one strength per consecutive pair that really is an import. -/
def pydepsCycleScan (cycle : List PySource) :
    List String × List CyclePath × List ℚ :=
  let n := cycle.length
  (List.range n).foldl
    (fun (acc : List String × List CyclePath × List ℚ) j =>
      let (entities, paths, strengths) := acc
      match cycle[j]?, cycle[(j + 1) % n]? with
      | some source, some next_source =>
        let entities := entities ++ [create_module_id source.name]
        if next_source.name ∈ source.imports then
          let strength := calcRelationshipStrength source next_source
          (entities,
           paths ++ [{ fromId := create_module_id source.name
                       toId := create_module_id next_source.name
                       relationship_type := "import"
                       strength := strength }],
           strengths ++ [strength])
        else (entities, paths, strengths)
      | _, _ => acc)
    ([], [], [])

/-- The severity computation of `detect_cycles_from_pydeps` as a function of
cycle length and average strength. -/
def legacySeverity (len : Nat) (avg_strength : ℚ) : String :=
  if len ≤ 2 then (if avg_strength < 2 then "low" else "medium")
  else if len ≤ 4 then (if avg_strength < 3 then "medium" else "high")
  else "high"

/-- One record of `detect_cycles_from_pydeps` (the `%.1f`-formatted average
in the description string is elided from the text). -/
def mkPydepsCycleRecord (i : Nat) (cycle : List PySource) : CycleDict :=
  let (cycle_entities, cycle_paths, cycle_strengths) := pydepsCycleScan cycle
  let avg_strength : ℚ :=
    if cycle_strengths ≠ [] then cycle_strengths.sum / (cycle_strengths.length : ℚ) else 1
  let severity :=
    if cycle.length ≤ 2 then (if avg_strength < 2 then "low" else "medium")
    else if cycle.length ≤ 4 then (if avg_strength < 3 then "medium" else "high")
    else "high"
  { id := "cycle_" ++ toString i
    entities := cycle_entities
    paths := cycle_paths
    cycle_type := "import"
    severity := severity
    metrics := some { length := cycle.length
                      average_strength := some avg_strength
                      total_coupling := some cycle_strengths.sum }
    description := some ("Import cycle involving " ++ toString cycle.length ++ " modules") }

/-- `LegacyBridge.detect_cycles_from_pydeps`, given the `cycles` attribute of
the dependency graph (each cycle a list of sources). -/
def detectCyclesFromPydeps (dep_graph_cycles : List (List PySource)) : List CycleDict :=
  dep_graph_cycles.enum.map fun (i, cycle) => mkPydepsCycleRecord i cycle

/-! ## AST import-cycle detection
(`AnalyzerEngine._detect_import_cycles_from_ast`)

Python `dict`/`set` become insertion-ordered association lists / lists; the
recursion of the two depth-first passes is bounded by a fuel argument that
exceeds the recursion depth Python can reach (each level visits a previously
unvisited graph key, of which there are at most `graph.length`). -/

/-- The import graph: module name → imported module names. -/
abbrev ImportGraph := List (String × List String)

/-- `graph.get(k, set())`. -/
def lookupG (g : ImportGraph) (k : String) : List String :=
  ((g.find? (·.1 = k)).map (·.2)).getD []

/-- `k in graph`. -/
def hasKeyG (g : ImportGraph) (k : String) : Bool :=
  g.any (·.1 = k)

/-- `graph.setdefault(k, set())`. -/
def setdefaultG (g : ImportGraph) (k : String) : ImportGraph :=
  if hasKeyG g k then g else g ++ [(k, [])]

/-- `graph[k].add(v)` (the key is always present when called). -/
def addEdgeG (g : ImportGraph) (k v : String) : ImportGraph :=
  g.map fun (key, vs) => if key = k then (key, if v ∈ vs then vs else vs ++ [v]) else (key, vs)

/-- `AnalyzerEngine._file_path_to_module_name`: strip a `.py` suffix, then
take the basename. -/
def filePathToModuleName (file_path : String) : String :=
  let module_path := if strEndsWith file_path ".py" then strDropRight file_path 3 else file_path
  osBasename module_path

/-- `AnalyzerEngine._resolve_import_name`: strip all leading dots of a
relative import, else return the name unchanged. -/
def resolveImportName (import_name : String) : String :=
  if strStartsWith import_name "." then String.mk (import_name.toList.dropWhile (· = '.'))
  else import_name

/-- The graph-building loop of `_detect_import_cycles_from_ast` (the
`file_to_module` map it also fills is never read and is omitted; analyses
are never `None` in the model, so only the empty-`file_path` guard remains). -/
def buildImportGraph (ast_analyses : List FileAnalysis) : ImportGraph :=
  ast_analyses.foldl
    (fun g analysis =>
      if analysis.file_path = "" then g
      else
        let module_name := filePathToModuleName analysis.file_path
        let g := setdefaultG g module_name
        analysis.imports.foldl
          (fun g import_info =>
            let imported_module := resolveImportName import_info.module
            if imported_module ≠ "" then addEdgeG g module_name imported_module else g)
          g)
    []

/-- First DFS pass (`dfs1`): mark visited, recurse into unvisited in-graph
neighbours, then append the node to the finish order. -/
def dfs1 (g : ImportGraph) : Nat → String → List String × List String → List String × List String
  | 0, _, acc => acc
  | fuel + 1, node, acc =>
    let acc := (acc.1 ++ [node], acc.2)
    let acc := (lookupG g node).foldl
      (fun (acc : List String × List String) neighbor =>
        if neighbor ∈ acc.1 then acc
        else if hasKeyG g neighbor then dfs1 g fuel neighbor acc
        else acc)
      acc
    (acc.1, acc.2 ++ [node])

/-- The first pass of Kosaraju: finish order of every graph key. -/
def kosarajuOrder (g : ImportGraph) : List String :=
  ((g.map (·.1)).foldl
    (fun (acc : List String × List String) node =>
      if node ∈ acc.1 then acc else dfs1 g (g.length + 1) node acc)
    ([], [])).2

/-- Transposition of the graph (`Step 2`). -/
def transposeG (g : ImportGraph) : ImportGraph :=
  g.foldl
    (fun t (entry : String × List String) =>
      let t := setdefaultG t entry.1
      entry.2.foldl (fun t v => addEdgeG (setdefaultG t v) v entry.1) t)
    []

/-- Second DFS pass (`dfs2`): collect one strongly connected component. -/
def dfs2 (t : ImportGraph) : Nat → String → List String × List String → List String × List String
  | 0, _, acc => acc
  | fuel + 1, node, acc =>
    let acc := (acc.1 ++ [node], acc.2 ++ [node])
    (lookupG t node).foldl
      (fun (acc : List String × List String) neighbor =>
        if neighbor ∈ acc.1 then acc else dfs2 t fuel neighbor acc)
      acc

/-- The `paths` list of an SCC record: EVERY edge of the import graph whose
endpoints both lie in the component (`for u in component: for v in the
graph entry of u: if v in component: append`). -/
def astCyclePaths (g : ImportGraph) (component : List String) : List CyclePath :=
  component.foldl
    (fun paths u =>
      paths ++ ((lookupG g u).filter (fun v => v ∈ component)).map fun v =>
        { fromId := create_module_id u
          toId := create_module_id v
          relationship_type := "import"
          strength := 1 })
    []

/-- The record emitted for an SCC of size ≥ 2. -/
def mkAstCycleRecord (g : ImportGraph) (cycle_id : Nat) (component : List String) : CycleDict :=
  { id := "ast_import_cycle_" ++ toString cycle_id
    entities := component.map create_module_id
    paths := astCyclePaths g component
    cycle_type := "import"
    severity := if component.length > 3 then "high" else "medium"
    metrics := some { length := component.length, detection_method := some "ast" }
    description := some ("AST-detected import cycle involving " ++
      toString component.length ++ " modules") }

/-- The record emitted for a self-importing single module. -/
def mkAstSelfLoopRecord (cycle_id : Nat) (u : String) : CycleDict :=
  { id := "ast_import_cycle_" ++ toString cycle_id
    entities := [create_module_id u]
    paths := [{ fromId := create_module_id u
                toId := create_module_id u
                relationship_type := "import"
                strength := 1 }]
    cycle_type := "import"
    severity := "medium"
    metrics := some { length := 1, detection_method := some "ast" }
    description := some "AST-detected self import cycle" }

/-- The body of the `for node in reversed(order)` loop of
`_detect_import_cycles_from_ast`: skip visited nodes, collect the node's
component, and emit a record for components of size ≥ 2 or self-loops. -/
def astDetectStep (g t : ImportGraph) (acc : List String × Nat × List CycleDict)
    (node : String) : List String × Nat × List CycleDict :=
  let (visited, cycle_id, cycles) := acc
  if node ∈ visited then acc
  else
    let (visited, component) := dfs2 t (t.length + 1) node (visited, [])
    if component.length ≥ 2 then
      (visited, cycle_id + 1, cycles ++ [mkAstCycleRecord g cycle_id component])
    else
      match component with
      | [u] =>
          if u ∈ lookupG g u then
            (visited, cycle_id + 1, cycles ++ [mkAstSelfLoopRecord cycle_id u])
          else (visited, cycle_id, cycles)
      | _ => (visited, cycle_id, cycles)

/-- `AnalyzerEngine._detect_import_cycles_from_ast`. -/
def detectImportCyclesFromAst (ast_analyses : List FileAnalysis) : List CycleDict :=
  if ast_analyses.isEmpty then []
  else
    let g := buildImportGraph ast_analyses
    let order := kosarajuOrder g
    let t := transposeG g
    (order.reverse.foldl (astDetectStep g t) ([], 0, [])).2.2

/-! ## Final assembly of cycle records (`AnalyzerEngine._assemble_result`)

The conversion from cycle dictionaries to `models.CyclicDependency` reads
exactly five keys — `id`, `entities`, `cycle_type`, `severity` and
`description`.  The `paths` list (and the `metrics`) of every record is
discarded, because `CyclicDependency` has no such field. -/

/-- The per-record conversion inside `_assemble_result`. -/
def assembleCycle (cycle_dict : CycleDict) : CyclicDependency :=
  { id := cycle_dict.id
    entities := cycle_dict.entities
    cycle_type := cycle_dict.cycle_type
    severity := cycle_dict.severity
    description := cycle_dict.description }

/-- The `for cycle_dict in integrated_data['cycles']` loop of
`_assemble_result`. -/
def assembleResultCycles (cycle_dicts : List CycleDict) : List CyclicDependency :=
  cycle_dicts.map assembleCycle

/-! ## The large-project path (`AnalyzerEngine._integrate_large_project_data`
and `_assemble_large_project_result`) -/

/-- The dictionary `_integrate_large_project_data` returns (the
`entity_counts` metrics sub-dictionary is derivable from the lists and
elided). -/
structure LargeIntegratedData where
  packages : List PackageInfo := []
  modules : List ModuleInfo := []
  classes : List ClassInfo := []
  methods : List MethodInfo := []
  fields : List FieldInfo := []
  relationships : List Relationship := []
  cycles : List CycleDict := []
deriving DecidableEq, Repr

/-- The message of the exception the per-analysis conversion raises (Python
quotes the names; the quotes are left out of the modelled text). -/
def largeIntegrationAttrErr : String :=
  "AttributeError: FileAnalysis object has no attribute functions"

/-- The `ModuleInfo(...)` construction inside the loop of
`_integrate_large_project_data`: its keyword arguments include
`functions=analysis.functions` and `loc=analysis.lines_of_code`, but
`FileAnalysis` defines neither attribute, so evaluating the first of them
raises `AttributeError` for every analysis. -/
def convertAnalysisLargeModule (_analysis : FileAnalysis) : Except String ModuleInfo :=
  .error largeIntegrationAttrErr

/-- `AnalyzerEngine._integrate_large_project_data`: the loop over the
analyses (which faults on its first iteration whenever the list is
non-empty), then the literal result dictionary, whose `cycles` entry is the
constant `[]` — no cycle detection of any kind runs on this path. -/
def integrateLargeProjectData (all_analyses : List FileAnalysis) :
    Except String LargeIntegratedData :=
  -- the result dictionary's `packages` (no package is ever added),
  -- `relationships` and `cycles` entries are all the empty list, which the
  -- structure defaults already provide
  all_analyses.foldlM
    (fun (d : LargeIntegratedData) analysis => do
      let module_info ← convertAnalysisLargeModule analysis
      pure { d with
        modules := d.modules ++ [module_info]
        classes := d.classes ++ analysis.classes
        methods := d.methods ++ analysis.methods
        fields := d.fields ++ analysis.fields })
    ({} : LargeIntegratedData)

/-- The cycle list the large-project result would carry
(`_assemble_large_project_result` copies `integrated_data['cycles']`
verbatim into the final `AnalysisResult`). -/
def largeProjectCycles (all_analyses : List FileAnalysis) : Except String (List CycleDict) :=
  (integrateLargeProjectData all_analyses).map (·.cycles)

/-! ## The fingerprint cache and incremental analysis
(`pyview/cache_manager.py`)

Fingerprint staleness (`FileMetadata.is_outdated`, a pure file-system /
hashing check) is abstracted into an `outdated : String → Bool` input, and
the text scan of `CacheManager._has_dependency` into
`hasDep : String → String → Bool`.  Timestamps are elided.  Note that
`AnalyzerEngine._save_analysis_cache` constructs `AnalysisCache` without a
`dependencies` argument, so a saved cache always carries the default empty
set. -/

/-- `cache_manager.AnalysisCache` (creation/expiry timestamps and the unused
`partial_results` map elided; `file_metadata` keeps the keys of the
file → fingerprint map, the fingerprints themselves living behind
`outdated`). -/
structure AnalysisCacheM where
  cache_id : String
  project_path : String
  file_metadata : List String := []
  analysis_result : Option AnalysisResult := none
  dependencies : List String := []
deriving DecidableEq, Repr

/-- `CacheManager.check_incremental_validity`: a validity flag per cached
file (deleted ⇒ `false`, else fingerprint freshness), plus `false` for every
brand-new file. -/
def checkIncrementalValidity (outdated : String → Bool) (cache : AnalysisCacheM)
    (current_files : List String) : List (String × Bool) :=
  let validity := cache.file_metadata.map fun file_path =>
    (file_path, if file_path ∉ current_files then false else ! outdated file_path)
  validity ++ (current_files.filter (fun f => f ∉ cache.file_metadata)).map fun f => (f, false)

/-- Deduplication keeping first occurrences — the model of materializing a
Python `set` built by successive `add`s (CPython's iteration order for such
a set is hash-dependent; no settled property depends on it). -/
def dedupFirst (seen : List String) : List String → List String
  | [] => []
  | x :: t => if x ∈ seen then dedupFirst seen t else x :: dedupFirst (seen ++ [x]) t

/-- The plan dictionary of `get_incremental_analysis_plan`. -/
structure IncrementalPlan where
  reuse : List String := []
  reanalyze : List String := []
  new : List String := []
deriving DecidableEq, Repr

/-- `CacheManager.get_incremental_analysis_plan`. -/
def getIncrementalAnalysisPlan (outdated : String → Bool)
    (hasDep : String → String → Bool) (cache : AnalysisCacheM)
    (current_files : List String) : IncrementalPlan :=
  let validity := checkIncrementalValidity outdated cache current_files
  let outdated_files := (validity.filter (fun p => !p.2)).map (·.1)
  let valid_files := (validity.filter (·.2)).map (·.1)
  let dependent_files := dedupFirst []
    (outdated_files.foldl
      (fun acc outdated_file =>
        acc ++ cache.dependencies.filter fun file_path => hasDep file_path outdated_file)
      [])
  let truly_valid := valid_files.filter fun f => f ∉ dependent_files
  let needs_reanalysis := dedupFirst [] (outdated_files ++ dependent_files)
  { reuse := truly_valid
    reanalyze := needs_reanalysis
    new := current_files.filter fun f => f ∉ cache.file_metadata }

/-- `IncrementalAnalyzer._merge_analysis_results` — VERBATIM from the source:
despite its name, its docstring ("Merge cached results with new partial
analysis") and its inline comments ("Update with new analysis data"), the
body is `merged = cached_result` followed by `return merged`; the freshly
re-analysed `new_result` is never read. -/
def mergeAnalysisResults (cached_result : Option AnalysisResult)
    (_new_result : AnalysisResult) : Option AnalysisResult :=
  cached_result

/-- `IncrementalAnalyzer.perform_incremental_analysis`.  `cache` is the
result of `cache_manager.get_cache(cache_id)`; `full_analyzer_func` is the
full-analysis fallback closure (its `project_path` argument, constant here,
is dropped).  The cache-update write-back at the end does not affect the
returned value and is elided.  With an empty `current_files` Python raises
`ZeroDivisionError`; the model is only applied to non-empty file lists. -/
def performIncrementalAnalysis (outdated : String → Bool)
    (hasDep : String → String → Bool) (cache : Option AnalysisCacheM)
    (current_files : List String)
    (full_analyzer_func : List String → AnalysisResult) : Option AnalysisResult :=
  match cache with
  | none => some (full_analyzer_func current_files)
  | some cache =>
    let plan := getIncrementalAnalysisPlan outdated hasDep cache current_files
    let reanalyze_files := plan.reanalyze ++ plan.new
    if ((reanalyze_files.length : ℚ) / (current_files.length : ℚ)) > 7/10 then
      some (full_analyzer_func current_files)
    else if !reanalyze_files.isEmpty then
      mergeAnalysisResults cache.analysis_result (full_analyzer_func reanalyze_files)
    else
      cache.analysis_result

/-! ## Module-level name binding (`analyzer_engine.py` imports)

Loading `pyview/analyzer_engine.py` executes its import statements first.
The model lists the names each `from`-import requests and the names the
source module actually binds at top level; a `from`-import fails with
`ImportError` at the first requested name the module does not bind.
Likewise, `AnalyzerEngine.__init__` calls
`ASTAnalyzer(enable_type_inference=...)`, while `ASTAnalyzer.__init__`
declares no parameter besides `self` (and no `**kwargs`), which raises
`TypeError`. -/

/-- Every top-level name `pyview/models.py` binds: its imports, its classes
and its factory functions. -/
def modelsModuleNames : List String :=
  ["dataclass", "field", "List", "Optional", "Dict", "Any", "Set", "Enum",
   "json", "datetime",
   "DependencyType", "EntityType", "ImportInfo", "FieldInfo", "MethodInfo",
   "ClassInfo", "ModuleInfo", "PackageInfo", "Relationship",
   "ComplexityMetrics", "CouplingMetrics", "CyclicDependency",
   "DependencyGraph", "ProjectInfo", "AnalysisResult",
   "create_package_id", "create_module_id", "create_class_id",
   "create_method_id", "create_field_id", "create_relationship_id"]

/-- Every top-level name `pyview/code_metrics.py` binds (imports, classes). -/
def codeMetricsModuleNames : List String :=
  ["ast", "dataclass", "field", "Dict", "List", "Set", "Optional", "Any",
   "Path", "math",
   "MethodInfo", "ClassInfo", "ModuleInfo",
   "ComplexityMetrics", "CouplingMetrics", "CohesionMetrics",
   "QualityMetrics", "ComplexityAnalyzer", "CouplingAnalyzer",
   "CohesionAnalyzer", "CodeMetricsEngine"]

/-- The names `analyzer_engine.py` requests in its
`from .models import (...)` statement, in source order. -/
def analyzerEngineModelsImports : List String :=
  ["AnalysisResult", "ProjectInfo", "DependencyGraph",
   "PackageInfo", "ModuleInfo", "ClassInfo", "MethodInfo", "FieldInfo",
   "Relationship", "CyclicDependency", "DependencyType", "QualityMetrics",
   "EntityType", "create_module_id"]

/-- `from M import n1, n2, ...`: binds the names in order, raising
`ImportError` at the first one the module does not define. -/
def fromImport (module_names : List String) : List String → Except String Unit
  | [] => .ok ()
  | n :: rest =>
      if n ∈ module_names then fromImport module_names rest
      else .error ("ImportError: cannot import name " ++ n)

/-- Executing the `from .models import (...)` statement at the top of
`analyzer_engine.py` — the first statement of the module body that can fail,
and a prerequisite of every later definition in the module. -/
def loadAnalyzerEngineModule : Except String Unit :=
  fromImport modelsModuleNames analyzerEngineModelsImports

/-- The named parameters of `ASTAnalyzer.__init__` besides `self` (the
source declares `def __init__(self):` — none, and no `**kwargs`). -/
def astAnalyzerInitParams : List String := []

/-- Binding one keyword argument against a parameter list with no `**kwargs`:
an unknown keyword raises `TypeError`. -/
def bindKeywordArg (params : List String) (kw : String) : Except String Unit :=
  if kw ∈ params then .ok ()
  else .error ("TypeError: __init__ got an unexpected keyword argument " ++ kw)

/-- The `ASTAnalyzer(enable_type_inference=...)` call in
`AnalyzerEngine.__init__` (line 93). -/
def engineInitAstAnalyzerCall : Except String Unit :=
  bindKeywordArg astAnalyzerInitParams "enable_type_inference"

/-! ## The specification's complexity rule (for comparison with the code)

Modelled from the spec: "base 1, plus one for each `if`, `for`/async-for,
`while`, `except` handler, boolean operator (`and`/`or` combinations count as
one per additional operand), and comprehension".  It differs from the code's
rule only on `BoolOp` nodes: a chain with `k` operands contributes `k - 1`
here, against exactly `1` (one operator node) in
`_calculate_complexity`. -/

/-- Number of expressions in a child list. -/
def pyExprListLength : PyExprList → Nat
  | .nil => 0
  | .cons _ t => 1 + pyExprListLength t

mutual

/-- Spec-rule contributions of a statement (spec-modelled; see section
comment). -/
def specCxStmt : PyStmt → Nat
  | .functionDef _ _ body decs r _ => specCxStmts body + specCxExprs decs + specCxOpt r
  | .asyncFunctionDef _ _ body decs r _ => specCxStmts body + specCxExprs decs + specCxOpt r
  | .classDef _ bases body decs _ => specCxExprs bases + specCxStmts body + specCxExprs decs
  | .assign targets value _ => specCxExprs targets + specCxExpr value
  | .annAssign target ann value _ => specCxExpr target + specCxExpr ann + specCxOpt value
  | .importStmt _ _ => 0
  | .importFrom _ _ _ _ => 0
  | .ifStmt test body orelse => 1 + specCxExpr test + specCxStmts body + specCxStmts orelse
  | .whileStmt test body orelse => 1 + specCxExpr test + specCxStmts body + specCxStmts orelse
  | .forStmt target iter body orelse =>
      1 + specCxExpr target + specCxExpr iter + specCxStmts body + specCxStmts orelse
  | .asyncForStmt target iter body orelse =>
      1 + specCxExpr target + specCxExpr iter + specCxStmts body + specCxStmts orelse
  | .tryStmt body handlers orelse finalbody =>
      specCxStmts body + specCxHandlers handlers + specCxStmts orelse + specCxStmts finalbody
  | .ret v _ => specCxOpt v
  | .exprStmt v _ => specCxExpr v
  | .passStmt => 0

/-- Spec-rule contributions of a body. -/
def specCxStmts : PyStmtList → Nat
  | .nil => 0
  | .cons s t => specCxStmt s + specCxStmts t

/-- Spec-rule contributions of an expression: a boolean chain contributes one
per additional operand. -/
def specCxExpr : PyExpr → Nat
  | .nameE _ _ => 0
  | .constE _ => 0
  | .attributeE v _ _ _ => specCxExpr v
  | .boolOpE _ values => (pyExprListLength values - 1) + specCxExprs values
  | .callE f args _ => specCxExpr f + specCxExprs args
  | .subscriptE v i => specCxExpr v + specCxExpr i
  | .listCompE elt gens => specCxExpr elt + specCxComps gens

/-- Spec-rule contributions of an expression list. -/
def specCxExprs : PyExprList → Nat
  | .nil => 0
  | .cons e t => specCxExpr e + specCxExprs t

/-- Spec-rule contributions of an optional expression. -/
def specCxOpt : OptPyExpr → Nat
  | .noneE => 0
  | .someE e => specCxExpr e

/-- Spec-rule contributions of a comprehension clause (counts 1). -/
def specCxComp : Comprehension → Nat
  | .mk target iter ifs => 1 + specCxExpr target + specCxExpr iter + specCxExprs ifs

/-- Spec-rule contributions of a comprehension-clause list. -/
def specCxComps : CompList → Nat
  | .nil => 0
  | .cons c t => specCxComp c + specCxComps t

/-- Spec-rule contributions of an except handler (counts 1). -/
def specCxHandler : ExceptHandler → Nat
  | .mk body => 1 + specCxStmts body

/-- Spec-rule contributions of a handler list. -/
def specCxHandlers : HandlerList → Nat
  | .nil => 0
  | .cons h t => specCxHandler h + specCxHandlers t

end

/-- The specification's cyclomatic complexity of a function node
(spec-modelled; see section comment). -/
def specCyclomaticComplexity (node : PyStmt) : Nat :=
  1 + specCxStmt node

/-! ### Boolean-chain expressions

A predicate and a count used to state exactly what the code computes for
bodies made of names, constants and boolean chains. -/

mutual

/-- An expression built only from names, constants and boolean chains. -/
def isBoolNameTree : PyExpr → Bool
  | .nameE _ _ => true
  | .constE _ => true
  | .boolOpE _ values => isBoolNameTreeList values
  | _ => false

/-- All expressions in the list are built from names, constants and boolean
chains. -/
def isBoolNameTreeList : PyExprList → Bool
  | .nil => true
  | .cons e t => isBoolNameTree e && isBoolNameTreeList t

end

mutual

/-- The number of `BoolOp` nodes in an expression. -/
def boolOpCount : PyExpr → Nat
  | .nameE _ _ => 0
  | .constE _ => 0
  | .attributeE v _ _ _ => boolOpCount v
  | .boolOpE _ values => 1 + boolOpCountList values
  | .callE f args _ => boolOpCount f + boolOpCountList args
  | .subscriptE v i => boolOpCount v + boolOpCount i
  | .listCompE elt gens => boolOpCount elt + boolOpCountComps gens

/-- The number of `BoolOp` nodes in an expression list. -/
def boolOpCountList : PyExprList → Nat
  | .nil => 0
  | .cons e t => boolOpCount e + boolOpCountList t

/-- The number of `BoolOp` nodes under comprehension clauses. -/
def boolOpCountComps : CompList → Nat
  | .nil => 0
  | .cons (.mk target iter ifs) t =>
      boolOpCount target + boolOpCount iter + boolOpCountList ifs + boolOpCountComps t

end

/-! ## Concrete inputs used by the claims -/

/-- A marker oracle: the project root `proj` contains `__init__.py` (or
another package marker); nothing else does. -/
def projMarker : List String → Bool := fun dirs => dirs = ["proj"]

/-- `proj/alpha.py` — imports `beta`, defines nothing else. -/
def faAlpha : FileAnalysis :=
  { file_path := "proj/alpha.py"
    module_info := { id := "mod:alpha", name := "alpha", file_path := "proj/alpha.py" }
    classes := [], methods := [], fields := []
    imports := [{ module := "beta", line_number := 1 }]
    relationships := [] }

/-- `proj/beta.py` — imports `alpha`, defines nothing else. -/
def faBeta : FileAnalysis :=
  { file_path := "proj/beta.py"
    module_info := { id := "mod:beta", name := "beta", file_path := "proj/beta.py" }
    classes := [], methods := [], fields := []
    imports := [{ module := "alpha", line_number := 1 }]
    relationships := [] }

/-- The import graph of the two-file project above. -/
def abGraph : ImportGraph := buildImportGraph [faAlpha, faBeta]

/-- The SCC record the AST detector emits for that project. -/
def abCycleRecord : CycleDict := mkAstCycleRecord abGraph 0 ["alpha", "beta"]

/-- C4's pydeps source `alpha`: imports ten modules (among them
`pkg.sub.beta`), is imported once, lives at depth 0. -/
def srcAlpha : PySource :=
  { name := "alpha"
    imports := ["pkg.sub.beta", "c1", "c2", "c3", "c4", "c5", "c6", "c7", "c8", "c9"]
    imported_by := ["pkg.sub.beta"]
    in_degree := 10, out_degree := 1
    name_parts := ["alpha"], module_depth := 0 }

/-- C4's pydeps source `pkg.sub.beta`: imports `alpha`, is imported once,
lives at depth 2. -/
def srcBeta : PySource :=
  { name := "pkg.sub.beta"
    imports := ["alpha"]
    imported_by := ["alpha"]
    in_degree := 1, out_degree := 1
    name_parts := ["pkg", "sub", "beta"], module_depth := 2 }

/-- C3's input tree — the module
```
class C:
    x = 1
    def m(self):
        self.x = 5
```
-/
def c3tree : PyStmtList := stmtsOf [
  .classDef "C" .nil (stmtsOf [
    .assign (exprsOf [.nameE "x" .store]) (.constE (.pcInt 1)) 2,
    .functionDef "m" ["self"] (stmtsOf [
      .assign (exprsOf [.attributeE (.nameE "self" .load) "x" .store 4])
        (.constE (.pcInt 5)) 4]) .nil .noneE 3]) .nil 1]

/-- The entity ids `analyze_file` produces for `proj/mymod.py` with C3's
tree. -/
def c3entityIds : List String :=
  match analyzeFile projMarker "proj/mymod.py" (.parsed 5 c3tree) with
  | .ok (some fa) => allEntityIds fa
  | _ => []

/-- C6's expression `a and b and c` — ONE `BoolOp` node with three
operands. -/
def c6expr : PyExpr :=
  .boolOpE .andOp (exprsOf [.nameE "a" .load, .nameE "b" .load, .nameE "c" .load])

/-- C6's function `def f(a, b, c): return a and b and c`. -/
def c6fn : PyStmt :=
  .functionDef "f" ["a", "b", "c"] (stmtsOf [.ret (.someE c6expr) 2]) .nil .noneE 1

/-- C1's module record for `p/a.py` as analysed in the cold run. -/
def c1moduleA : ModuleInfo := { id := "mod:a", name := "a", file_path := "p/a.py", loc := 10 }

/-- C1's module record for `p/b.py` as analysed in the cold run (10 lines). -/
def c1moduleBold : ModuleInfo := { id := "mod:b", name := "b", file_path := "p/b.py", loc := 10 }

/-- C1's module record for `p/b.py` after the file was modified (20 lines). -/
def c1moduleBnew : ModuleInfo := { id := "mod:b", name := "b", file_path := "p/b.py", loc := 20 }

/-- C1's cached cold-run result `R0`. -/
def c1r0 : AnalysisResult :=
  { analysis_id := "run-0"
    project_info := { name := "p", path := "p", total_files := 2 }
    dependency_graph := { modules := [c1moduleA, c1moduleBold] } }

/-- What re-analysing only the modified `p/b.py` produces. -/
def c1rFreshB : AnalysisResult :=
  { analysis_id := "run-1"
    project_info := { name := "p", path := "p", total_files := 1 }
    dependency_graph := { modules := [c1moduleBnew] } }

/-- What a full re-analysis of both files would produce. -/
def c1rFull : AnalysisResult :=
  { analysis_id := "run-1-full"
    project_info := { name := "p", path := "p", total_files := 2 }
    dependency_graph := { modules := [c1moduleA, c1moduleBnew] } }

/-- C1's analyzer callback: fresh results per requested file set. -/
def c1full : List String → AnalysisResult :=
  fun files => if files = ["p/b.py"] then c1rFreshB else c1rFull

/-- C1's prior cache entry (note: `_save_analysis_cache` never populates
`dependencies`, hence the default empty list). -/
def c1cache : AnalysisCacheM :=
  { cache_id := "c1", project_path := "p"
    file_metadata := ["p/a.py", "p/b.py"]
    analysis_result := some c1r0 }

/-- C1's fingerprint staleness: only `p/b.py` changed. -/
def c1outdated : String → Bool := fun f => f = "p/b.py"

/-- The severity rule the AST import-cycle detector follows (`high` over
length 3, else `medium`). -/
def astSeverityRule (rec : CycleDict) : Prop :=
  rec.severity = if 3 < rec.entities.length then "high" else "medium"

/-! ## Helper lemmas -/

mutual

/-- On name/constant/boolean-chain expressions the code's walk count is
exactly the number of `BoolOp` nodes. -/
theorem cxExpr_boolTree : ∀ e : PyExpr, isBoolNameTree e = true → cxExpr e = boolOpCount e
  | .nameE _ _, _ => rfl
  | .constE _, _ => rfl
  | .boolOpE _ values, h => by
      have hv : isBoolNameTreeList values = true := by simpa [isBoolNameTree] using h
      simp [cxExpr, boolOpCount, cxExprs_boolTree values hv]

/-- List version of `cxExpr_boolTree`. -/
theorem cxExprs_boolTree : ∀ l : PyExprList, isBoolNameTreeList l = true →
    cxExprs l = boolOpCountList l
  | .nil, _ => rfl
  | .cons e t, h => by
      have he : isBoolNameTree e = true := by
        have hh := h
        simp [isBoolNameTreeList, Bool.and_eq_true] at hh
        exact hh.1
      have ht : isBoolNameTreeList t = true := by
        have hh := h
        simp [isBoolNameTreeList, Bool.and_eq_true] at hh
        exact hh.2
      simp [cxExprs, boolOpCountList, cxExpr_boolTree e he, cxExprs_boolTree t ht]

end

/-- Members of the accumulator stay members through an append-style fold. -/
theorem mem_foldl_append_init {α β : Type} (f : α → List β) :
    ∀ (l : List α) (init : List β) (p : β), p ∈ init →
      p ∈ l.foldl (fun acc u => acc ++ f u) init := by
  intro l
  induction l with
  | nil => intro init p hp; simpa using hp
  | cons a t ih =>
      intro init p hp
      simpa using ih (init ++ f a) p (by simp [hp])

/-- Everything `f` contributes for a member of the list ends up in an
append-style fold. -/
theorem mem_foldl_append {α β : Type} (f : α → List β) :
    ∀ (l : List α) (init : List β) (u : α), u ∈ l → ∀ p ∈ f u,
      p ∈ l.foldl (fun acc v => acc ++ f v) init := by
  intro l
  induction l with
  | nil => intro init u hu; cases hu
  | cons a t ih =>
      intro init u hu p hp
      rcases List.mem_cons.mp hu with rfl | hu
      · exact mem_foldl_append_init f t (init ++ f u) p (by simp [hp])
      · exact ih (init ++ f a) u hu p hp

/-- One loop step of the AST cycle detector only appends records satisfying
the length-based severity rule. -/
theorem astDetectStep_preserves (g t : ImportGraph)
    (acc : List String × Nat × List CycleDict) (node : String)
    (h : ∀ r ∈ acc.2.2, astSeverityRule r) :
    ∀ r ∈ (astDetectStep g t acc node).2.2, astSeverityRule r := by
  intro r hr
  unfold astDetectStep at hr
  rcases acc with ⟨visited, cycle_id, cycles⟩
  simp only at hr
  split at hr
  · exact h r hr
  · split at hr
    · rcases List.mem_append.mp hr with hold | hnew
      · exact h r hold
      · have hrq : r = mkAstCycleRecord g cycle_id
            (dfs2 t (t.length + 1) node (visited, [])).2 := by
          simpa using hnew
        subst hrq
        simp [astSeverityRule, mkAstCycleRecord, Nat.lt_iff_add_one_le]
    · split at hr
      · split at hr
        · rcases List.mem_append.mp hr with hold | hnew
          · exact h r hold
          · have hru := List.mem_singleton.mp hnew
            subst hru
            simp [astSeverityRule, mkAstSelfLoopRecord]
        · exact h r hr
      · exact h r hr

/-- The whole detector loop only emits records satisfying the length-based
severity rule. -/
theorem foldl_astDetectStep_preserves (g t : ImportGraph) :
    ∀ (l : List String) (acc : List String × Nat × List CycleDict),
      (∀ r ∈ acc.2.2, astSeverityRule r) →
      ∀ r ∈ (l.foldl (astDetectStep g t) acc).2.2, astSeverityRule r := by
  intro l
  induction l with
  | nil => intro acc h; simpa using h
  | cons a rest ih =>
      intro acc h
      exact ih (astDetectStep g t acc a) (astDetectStep_preserves g t acc a h)

/-- Every record of `_detect_import_cycles_from_ast` follows the spec's
length rule for import cycles. -/
theorem detect_ast_severity (ast_analyses : List FileAnalysis) :
    ∀ rec ∈ detectImportCyclesFromAst ast_analyses,
      rec.severity = if 3 < rec.entities.length then "high" else "medium" := by
  intro rec hrec
  unfold detectImportCyclesFromAst at hrec
  split at hrec
  · cases hrec
  · exact foldl_astDetectStep_preserves _ _ _ ([], 0, []) (by simp) rec hrec

/-- Every pydeps cycle record's severity follows the strength-dependent rule
`legacySeverity` applied to its own length and average strength. -/
theorem pydeps_severity (i : Nat) (cycle : List PySource) :
    ∃ m avg, (mkPydepsCycleRecord i cycle).metrics = some m ∧
      m.length = cycle.length ∧ m.average_strength = some avg ∧
      (mkPydepsCycleRecord i cycle).severity = legacySeverity cycle.length avg := by
  rcases hscan : pydepsCycleScan cycle with ⟨e, p, s⟩
  refine ⟨{ length := cycle.length
            average_strength := some (if s ≠ [] then s.sum / (s.length : ℚ) else 1)
            total_coupling := some s.sum },
          (if s ≠ [] then s.sum / (s.length : ℚ) else 1), ?_, rfl, rfl, ?_⟩
  · simp [mkPydepsCycleRecord, hscan]
  · simp [mkPydepsCycleRecord, hscan, legacySeverity]

/-- Matching a trailing `star` pattern absorbs any run of characters —
including runs containing the path separator. -/
theorem globMatch_star_absorb (ts : List GlobTok) (mid rest : List Char)
    (h : globMatch ts rest = true) :
    globMatch (.star :: ts) (mid ++ rest) = true := by
  simp only [globMatch, List.any_eq_true]
  exact ⟨rest, (List.mem_tails rest (mid ++ rest)).mpr (List.suffix_append mid rest), h⟩

/-- `fnmatch("keep/" + anything + ".py", "keep/*.py")` is true for EVERY
in-between string, separators included. -/
theorem fnmatch_keep_star (s : String) :
    fnmatchStr ("keep/" ++ s ++ ".py") "keep/*.py" = true := by
  unfold fnmatchStr
  have h : ("keep/" ++ s ++ ".py").toList = "keep/".toList ++ s.toList ++ ".py".toList := by
    simp [String.toList, String.data_append]
  rw [h, List.append_assoc]
  show globMatch [.star, .lit '.', .lit 'p', .lit 'y'] (s.toList ++ ['.', 'p', 'y']) = true
  exact globMatch_star_absorb [.lit '.', .lit 'p', .lit 'y'] s.toList ['.', 'p', 'y'] (by decide)

/-! ## The claims -/

/-- **C1** (code bug).  With a prior cache of `R0` over `p/a.py` and
`p/b.py` and only `p/b.py` modified, the incremental path re-analyses
exactly `p/b.py` (whose fresh result differs from the cached one), yet
`perform_incremental_analysis` returns `R0` itself: `_merge_analysis_results`
discards the re-analysed content and keeps the cached prior content, against
the spec's scenario 7 / P6 and against the function's own docstring. -/
theorem c1_incremental_merge_returns_stale_cache :
    performIncrementalAnalysis c1outdated (fun _ _ => false) (some c1cache)
        ["p/a.py", "p/b.py"] c1full = some c1r0 ∧
    c1full ["p/b.py"] = c1rFreshB ∧
    c1rFreshB.dependency_graph.modules ≠ c1r0.dependency_graph.modules ∧
    mergeAnalysisResults (some c1r0) c1rFreshB = some c1r0 := by
  refine ⟨?_, by decide, by decide, rfl⟩
  simp [performIncrementalAnalysis, getIncrementalAnalysisPlan, checkIncrementalValidity,
    dedupFirst, mergeAnalysisResults, c1cache, c1outdated, c1full]
  norm_num

/-- **C2** (implicit, confirmed).  Loading `pyview/analyzer_engine.py` fails
for every input: its `from .models import (...)` requests `QualityMetrics`,
a name `models.py` does not bind (only `code_metrics.py` does); and
independently `AnalyzerEngine.__init__` passes the keyword
`enable_type_inference` to `ASTAnalyzer.__init__`, which accepts no such
parameter — so `analyze_project` can never be called successfully. -/
theorem c2_analyzer_engine_unusable :
    loadAnalyzerEngineModule = .error "ImportError: cannot import name QualityMetrics" ∧
    "QualityMetrics" ∉ modelsModuleNames ∧
    "QualityMetrics" ∈ codeMetricsModuleNames ∧
    engineInitAstAnalyzerCall =
      .error "TypeError: __init__ got an unexpected keyword argument enable_type_inference" := by
  decide

/-- **C3** (code bug).  A class with a class-level field `x` and a
`self.x = ...` assignment in a method produces TWO distinct `FieldInfo`
records carrying the same id `field:cls:mod:mymod:C:x` — entity ids of one
run are NOT pairwise distinct, violating the spec's invariant P2/I-uniqueness
(and `create_field_id`'s own "unique ID" contract). -/
theorem c3_duplicate_field_ids :
    c3entityIds = ["mod:mymod", "cls:mod:mymod:C", "meth:cls:mod:mymod:C:m:3",
                   "field:cls:mod:mymod:C:x", "field:cls:mod:mymod:C:x"] ∧
    ¬ c3entityIds.Nodup := by
  decide

/-- **C4 counterexample**.  A two-module import cycle reported by the pydeps
path gets severity `"low"` (its average strength, 341/200, is below the 2.0
threshold) — not `"medium"` as the claim requires of every two-module import
cycle, and `"low"` is a downgrade, which the claim forbids. -/
theorem c4_two_module_import_cycle_low :
    (detectCyclesFromPydeps [[srcAlpha, srcBeta]]).map (·.severity) = ["low"] ∧
    "low" ≠ "medium" := by
  constructor
  · simp [detectCyclesFromPydeps, mkPydepsCycleRecord, pydepsCycleScan,
      calcRelationshipStrength, commonPrefixLen, srcAlpha, srcBeta, List.enum,
      List.range, List.range.loop, List.foldl]
    norm_num
  · decide

/-- **C4** (corrected).  The AST-side import-cycle detector follows the
spec's length rule (`high` iff more than 3 entities, else `medium`, also for
self-loops), but the pydeps-side detector's severity follows the
strength-dependent rule `legacySeverity` applied to the record's own length
and average strength (`low`/`medium` at length ≤ 2 by the 2.0 threshold,
`medium`/`high` at length ≤ 4 by the 3.0 threshold, `high` above), which can
both downgrade and upgrade relative to the spec's rule. -/
theorem c4_severity_rules :
    (∀ (i : Nat) (cycle : List PySource),
      ∃ m avg, (mkPydepsCycleRecord i cycle).metrics = some m ∧
        m.length = cycle.length ∧ m.average_strength = some avg ∧
        (mkPydepsCycleRecord i cycle).severity = legacySeverity cycle.length avg) ∧
    (∀ (ast_analyses : List FileAnalysis), ∀ rec ∈ detectImportCyclesFromAst ast_analyses,
      rec.severity = if 3 < rec.entities.length then "high" else "medium") :=
  ⟨pydeps_severity, detect_ast_severity⟩

/-- Witness for `c4_severity_rules` at the concrete two-module cycles. -/
theorem c4_severity_rules_witness :
    (∃ m avg, (mkPydepsCycleRecord 0 [srcAlpha, srcBeta]).metrics = some m ∧
      m.length = 2 ∧ m.average_strength = some avg ∧
      (mkPydepsCycleRecord 0 [srcAlpha, srcBeta]).severity = legacySeverity 2 avg) ∧
    abCycleRecord.severity = if 3 < abCycleRecord.entities.length then "high" else "medium" :=
  ⟨c4_severity_rules.1 0 [srcAlpha, srcBeta],
   c4_severity_rules.2 [faAlpha, faBeta] abCycleRecord (by decide)⟩

/-- **C5 counterexample**.  The SCC record for the two-module import cycle
carries a non-empty `paths` list, but the `CyclicDependency` it becomes in
the final `AnalysisResult` is identical to the one obtained after deleting
the paths: `_assemble_result` reads only id, entities, type, severity and
description, and `models.CyclicDependency` has no edge-list field at all. -/
theorem c5_final_records_drop_paths :
    abCycleRecord.paths ≠ [] ∧
    ({ abCycleRecord with paths := [] } : CycleDict) ≠ abCycleRecord ∧
    assembleCycle { abCycleRecord with paths := [] } = assembleCycle abCycleRecord := by
  refine ⟨by decide, by decide, rfl⟩

/-- **C5** (corrected).  At the detector-dictionary level the AST import
detector's `paths` list is complete — every import edge with both endpoints
in the component is listed — but the final `AnalysisResult` does not keep
it: the conversion to `CyclicDependency` is invariant under replacing a
record's `paths` by the empty list, so no final cycle record carries an edge
list. -/
theorem c5_paths_complete_in_dicts_dropped_in_result :
    (∀ (g : ImportGraph) (component : List String) (u v : String),
        u ∈ component → v ∈ component → v ∈ lookupG g u →
        ({ fromId := create_module_id u, toId := create_module_id v,
           relationship_type := "import", strength := 1 } : CyclePath) ∈
          astCyclePaths g component) ∧
    (∀ d : CycleDict, assembleCycle { d with paths := [] } = assembleCycle d) := by
  constructor
  · intro g component u v hu hv hedge
    unfold astCyclePaths
    refine mem_foldl_append _ component [] u hu _ ?_
    exact List.mem_map.mpr ⟨v, List.mem_filter.mpr ⟨hedge, by simpa using hv⟩, rfl⟩
  · intro d
    rfl

/-- Witness for `c5_paths_complete_in_dicts_dropped_in_result` on the
two-module cycle. -/
theorem c5_paths_witness :
    ({ fromId := "mod:alpha", toId := "mod:beta",
       relationship_type := "import", strength := 1 } : CyclePath) ∈
      astCyclePaths abGraph ["alpha", "beta"] ∧
    assembleCycle { abCycleRecord with paths := [] } = assembleCycle abCycleRecord := by
  constructor
  · have h := c5_paths_complete_in_dicts_dropped_in_result.1 abGraph ["alpha", "beta"]
      "alpha" "beta" (by decide) (by decide) (by decide)
    simpa [create_module_id, replaceChar, strEndsWith, strDropRight] using h
  · exact c5_paths_complete_in_dicts_dropped_in_result.2 abCycleRecord

/-- **C6 counterexample**.  For `def f(a, b, c): return a and b and c` the
code computes complexity 2 (one per `BoolOp` operator node), while the
claim's rule — one per additional operand, "so `a and b and c` contributes
2" — demands 3. -/
theorem c6_boolop_chain_counts_once :
    calculateComplexity c6fn = 2 ∧ specCyclomaticComplexity c6fn = 3 ∧ (2 : Nat) ≠ 3 := by
  decide

/-- **C6** (corrected).  Complexity is base 1 plus one per `if`,
`for`/async-for, `while`, except handler and comprehension — but boolean
chains contribute one per `BoolOp` node (per chain), NOT one per additional
operand: for a body `return e` built of names, constants and boolean chains
the complexity is exactly 1 plus the number of `BoolOp` nodes, and 1 when
there is no decision point at all. -/
theorem c6_complexity_boolop_per_chain (name : String) (args : List String)
    (lineno retline : Nat) (e : PyExpr) (h : isBoolNameTree e = true) :
    calculateComplexity
        (.functionDef name args (stmtsOf [.ret (.someE e) retline]) .nil .noneE lineno) =
      1 + boolOpCount e := by
  simp [calculateComplexity, cxStmt, cxStmts, stmtsOf, cxOpt, cxExprs, cxExpr_boolTree e h]

/-- Witness for `c6_complexity_boolop_per_chain` at `a and b and c`. -/
theorem c6_complexity_witness :
    calculateComplexity
        (.functionDef "f" ["a", "b", "c"] (stmtsOf [.ret (.someE c6expr) 2]) .nil .noneE 1) =
      1 + boolOpCount c6expr :=
  c6_complexity_boolop_per_chain "f" ["a", "b", "c"] 1 2 c6expr (by decide)

/-- **C7 counterexample**.  The two-file project `alpha ↔ beta` has an
import-graph SCC of size 2 (the standard path's detector reports it), yet on the
optimized large-project path no cycle ever surfaces: `_integrate_large_
project_data` faults with `AttributeError` on its first analysis (it reads
the non-existent `FileAnalysis.functions`), and its `cycles` entry is the
constant empty list in any case. -/
theorem c7_large_path_no_cycles :
    (detectImportCyclesFromAst [faAlpha, faBeta]).map (·.entities) =
      [["mod:alpha", "mod:beta"]] ∧
    largeProjectCycles [faAlpha, faBeta] = .error largeIntegrationAttrErr := by
  refine ⟨by decide, by decide⟩

/-- **C7** (corrected).  Module-level import-cycle detection is NOT performed
on the optimized large-project path: its integration step performs no cycle
detection at all — with any non-empty analysis list it raises
`AttributeError` (reading `FileAnalysis.functions`), and with an empty list
it returns an empty cycle list. -/
theorem c7_large_integration_behavior (analysis : FileAnalysis)
    (rest : List FileAnalysis) :
    integrateLargeProjectData (analysis :: rest) = .error largeIntegrationAttrErr ∧
    largeProjectCycles [] = .ok [] :=
  ⟨rfl, rfl⟩

/-- Witness for `c7_large_integration_behavior` at the two-file project. -/
theorem c7_large_integration_witness :
    integrateLargeProjectData [faAlpha, faBeta] = .error largeIntegrationAttrErr ∧
    largeProjectCycles [] = .ok [] :=
  c7_large_integration_behavior faAlpha [faBeta]

/-- **C8 counterexample**.  `should_exclude` with the single pattern
`keep/*.py` matches the path `keep/sub/a.py`: the `*` consumed `sub/a`,
which contains the path separator — the claim says this pattern does not
match this path. -/
theorem c8_star_crosses_separator :
    shouldExclude (mkGitignoreMatcher ["keep/*.py"]) false "keep/sub/a.py" = true := by
  decide

/-- **C8** (corrected).  The matcher delegates to `fnmatch`, whose `*`
matches ANY run of characters, the path separator included: for every
in-between string `s`, the pattern `keep/*.py` matches `keep/<s>.py` and
`should_exclude` excludes that path. -/
theorem c8_star_matches_any_run (s : String) :
    fnmatchStr ("keep/" ++ s ++ ".py") "keep/*.py" = true ∧
    shouldExclude (mkGitignoreMatcher ["keep/*.py"]) false ("keep/" ++ s ++ ".py") = true := by
  refine ⟨fnmatch_keep_star s, ?_⟩
  have hm : mkGitignoreMatcher ["keep/*.py"] =
      { include_patterns := [], exclude_patterns := ["keep/*.py"] } := by decide
  rw [hm]
  simp [shouldExclude, matchPattern, matchNameParts, fnmatch_keep_star s,
    strStartsWith, strEndsWith, strContains]
  refine ⟨by decide, Or.inl (by decide)⟩

/-- Witness for `c8_star_matches_any_run` at `s = "sub/a"`. -/
theorem c8_star_witness :
    fnmatchStr ("keep/" ++ "sub/a" ++ ".py") "keep/*.py" = true ∧
    shouldExclude (mkGitignoreMatcher ["keep/*.py"]) false ("keep/" ++ "sub/a" ++ ".py") = true :=
  c8_star_matches_any_run "sub/a"

/-- **C9** (confirmed).  When a file fails to parse with a syntax error,
`analyze_file` returns a `FileAnalysis` whose module descriptor carries the
name derived from the file path, whose entity/import/relationship lists are
all empty, and whose `parse_error` is the (non-empty) parser diagnostic; a
sequential run keeps analysing the remaining files. -/
theorem c9_syntax_error_file_analysis (hasMarker : List String → Bool)
    (file_path msg module_name : String) (rest : List (String × SourceOutcome))
    (hmod : getModuleName hasMarker file_path = .ok module_name) (hmsg : msg ≠ "") :
    ∃ fa : FileAnalysis,
      analyzeFile hasMarker file_path (.synErr msg) = .ok (some fa) ∧
      fa.module_info.name = module_name ∧
      fa.module_info.id = create_module_id module_name ∧
      fa.classes = [] ∧ fa.methods = [] ∧ fa.fields = [] ∧
      fa.imports = [] ∧ fa.relationships = [] ∧
      fa.parse_error = some msg ∧ msg ≠ "" ∧
      runSequentialAstAnalysis hasMarker ((file_path, .synErr msg) :: rest) =
        fa :: runSequentialAstAnalysis hasMarker rest := by
  refine ⟨{ file_path := file_path
            module_info :=
              { id := create_module_id module_name
                name := module_name
                file_path := file_path }
            classes := []
            methods := []
            fields := []
            imports := []
            relationships := []
            parse_error := some msg },
          ?_, rfl, rfl, rfl, rfl, rfl, rfl, rfl, rfl, hmsg, ?_⟩
  · simp [analyzeFile, hmod]
  · simp [runSequentialAstAnalysis, analyzeFile, hmod]

/-- Witness for `c9_syntax_error_file_analysis` at a concrete bad file. -/
theorem c9_syntax_error_witness :
    getModuleName projMarker "proj/bad.py" = .ok "bad" ∧
    ("invalid syntax (bad.py, line 1)" : String) ≠ "" ∧
    ∃ fa : FileAnalysis,
      analyzeFile projMarker "proj/bad.py" (.synErr "invalid syntax (bad.py, line 1)") =
        .ok (some fa) ∧
      fa.module_info.name = "bad" ∧
      fa.module_info.id = create_module_id "bad" ∧
      fa.classes = [] ∧ fa.methods = [] ∧ fa.fields = [] ∧
      fa.imports = [] ∧ fa.relationships = [] ∧
      fa.parse_error = some "invalid syntax (bad.py, line 1)" ∧
      ("invalid syntax (bad.py, line 1)" : String) ≠ "" ∧
      runSequentialAstAnalysis projMarker
          [("proj/bad.py", .synErr "invalid syntax (bad.py, line 1)")] =
        fa :: runSequentialAstAnalysis projMarker [] :=
  ⟨by decide, by decide,
   c9_syntax_error_file_analysis projMarker "proj/bad.py"
     "invalid syntax (bad.py, line 1)" "bad" [] (by decide) (by decide)⟩

/-- **C10 counterexample**.  For a file whose READ fails (here an
undecodable file raising `UnicodeDecodeError`), `analyze_file` returns
`None`: no `FileAnalysis` is produced at all and no `parse_error` is
recorded anywhere — the claim says a `FileAnalysis` with `parse_error` is
still produced. -/
theorem c10_read_error_yields_no_file_analysis :
    analyzeFile projMarker "proj/data.py"
      (.readErr "UnicodeDecodeError: utf-8 codec cannot decode byte 0xff") = .ok none := by
  rfl

/-- **C10** (corrected).  Only parse (syntax) errors are recorded on a
`FileAnalysis.parse_error`; a file that cannot be READ produces no
`FileAnalysis` at all (`analyze_file` logs and returns `None`), and the
sequential run silently drops it while continuing over the remaining
files. -/
theorem c10_read_error_behavior (hasMarker : List String → Bool)
    (file_path msg : String) (rest : List (String × SourceOutcome)) :
    analyzeFile hasMarker file_path (.readErr msg) = .ok none ∧
    runSequentialAstAnalysis hasMarker ((file_path, .readErr msg) :: rest) =
      runSequentialAstAnalysis hasMarker rest :=
  ⟨rfl, rfl⟩

/-- Witness for `c10_read_error_behavior` at a concrete unreadable file. -/
theorem c10_read_error_witness :
    analyzeFile projMarker "proj/data.py"
        (.readErr "OSError: could not read file") = .ok none ∧
    runSequentialAstAnalysis projMarker
        [("proj/data.py", .readErr "OSError: could not read file"),
         ("proj/alpha.py", .synErr "invalid syntax")] =
      runSequentialAstAnalysis projMarker [("proj/alpha.py", .synErr "invalid syntax")] :=
  c10_read_error_behavior projMarker "proj/data.py" "OSError: could not read file"
    [("proj/alpha.py", .synErr "invalid syntax")]

end PyView
